import Mathlib

/-!
# Homer-Conferencing: RTP/RTCP header layout and the Condition primitive

A shallow embedding of

* `HomerMultimedia/include/RTP.h`: the unions `RtcpHeader` and `RtpHeader`,
  `RTCP_HEADER_SIZE`, `RTP_HEADER_SIZE`;
* `HomerBase/src/HBCondition.cpp`: `Condition::Condition`, `Condition::Wait`,
  `Condition::SignalOne`, `Condition::SignalAll`, `Condition::Reset`;
* `Homer/src/main.cpp`: `GetSignalDescription`, `HandleExceptionSignal`;
* the sequence-number extension, the loss accounting and the H.261 fragmentation of
  class `RTP`, whose bodies are not among the sources and are modelled from the
  specification.

## Conventions for the header unions

Both header structs carry `__attribute__((__packed__))`, so their members are laid
out back to back, in declaration order, without padding.  The embedding fixes the
ABI the overlay with `uint32_t Data[n]` is written for: a little-endian host whose
compiler allocates bit-fields starting at the least significant bit of the storage
unit (GCC on x86 / x86-64 / little-endian ARM).  The memory of a header is one
natural number `mem`, byte `k` of the object being bits `8k .. 8k+7` of `mem`;
a member that starts `off` bits into the object and is `w` bits wide then reads
`mem / 2^off % 2^w`, and `Data[i]` reads `mem / 2^(32 i) % 2^32`.

## Conventions for `Condition`

The operating system is an oracle: the results of `clock_gettime`, of the wait
calls and of the initialisation calls are inputs.  Every operation returns its C
return value together with the list of the OS calls and log calls it issued, in
program order.  `int` is 32 bit and `long` 64 bit (LP64); signed overflow is
modelled as two's-complement wrap-around.
-/

namespace Homer

/-! ## Packed struct layout -/

/-- A packed struct: its members (name, width in bits) in declaration order. -/
abbrev Layout (α : Type) := List (α × Nat)

/-- Bit offset of member `f`: the widths of the members declared before it. -/
def bitOffset {α : Type} [DecidableEq α] : Layout α → α → Nat
  | [], _ => 0
  | (n, w) :: rest, f => if n = f then 0 else w + bitOffset rest f

/-- Width in bits of member `f` (0 when the struct has no such member). -/
def bitWidth {α : Type} [DecidableEq α] : Layout α → α → Nat
  | [], _ => 0
  | (n, w) :: rest, f => if n = f then w else bitWidth rest f

/-- Size of a packed struct in bits. -/
def sizeBits {α : Type} (l : Layout α) : Nat := (l.map Prod.snd).sum

/-- The C `sizeof` of a packed struct, in octets. -/
def sizeofPacked {α : Type} (l : Layout α) : Nat := (sizeBits l + 7) / 8

/-- Reading member `f` of a packed struct stored in `mem`. -/
def readField {α : Type} [DecidableEq α] (l : Layout α) (f : α) (mem : Nat) : Nat :=
  mem / 2 ^ bitOffset l f % 2 ^ bitWidth l f

/-- Assigning `v` to member `f`: the member keeps the low `bitWidth` bits of `v`
(C conversion to an unsigned type of that width); no other bit of `mem` changes. -/
def writeField {α : Type} [DecidableEq α] (l : Layout α) (f : α) (v : Nat) (mem : Nat) : Nat :=
  mem - readField l f mem * 2 ^ bitOffset l f + (v % 2 ^ bitWidth l f) * 2 ^ bitOffset l f

/-- Reading `Data[i]` of a `uint32_t Data[n]` overlay. -/
def dataWord (mem : Nat) (i : Nat) : Nat := mem / 2 ^ (32 * i) % 2 ^ 32

/-- The C `sizeof` of `uint32_t Data[n]`, in octets. -/
def sizeofData (n : Nat) : Nat := 4 * n

/-! ## `union RtpHeader` (RTP.h, lines 92-110) -/

/-- Members of the anonymous struct inside `union RtpHeader`. -/
inductive RtpField
  | SequenceNumber
  | PayloadType
  | Marked
  | CsrcCount
  | Extension
  | Padding
  | Version
  | Timestamp
  | Ssrc
  deriving DecidableEq, Repr

/-- The anonymous packed struct of `union RtpHeader`, in declaration order. -/
def RtpHeader : Layout RtpField :=
  [ (.SequenceNumber, 16),   -- unsigned short int SequenceNumber
    (.PayloadType, 7),       -- unsigned int PayloadType:7
    (.Marked, 1),            -- unsigned int Marked:1
    (.CsrcCount, 4),         -- unsigned int CsrcCount:4
    (.Extension, 1),         -- unsigned int Extension:1
    (.Padding, 1),           -- unsigned int Padding:1
    (.Version, 2),           -- unsigned int Version:2
    (.Timestamp, 32),        -- unsigned int Timestamp
    (.Ssrc, 32) ]            -- unsigned int Ssrc

/-- Number of elements of `uint32_t Data[3]` in `union RtpHeader`. -/
def RtpHeader_DataLen : Nat := 3

/-- `RTP_HEADER_SIZE`, i.e. `sizeof(RtpHeader)`: the larger of the two union members. -/
def RTP_HEADER_SIZE : Nat := max (sizeofPacked RtpHeader) (sizeofData RtpHeader_DataLen)

/-- The first word of the fixed RTP header as RFC 3550 section 5.1 draws it, most
significant field first: V (2 bits), P, X, CC (4), M, PT (7), sequence number (16).
This definition follows the RFC, not the source; the struct is compared with it. -/
def rfc3550Word0 (v p x cc m pt seq : Nat) : Nat :=
  v * 2 ^ 30 + p * 2 ^ 29 + x * 2 ^ 28 + cc * 2 ^ 24 + m * 2 ^ 23 + pt * 2 ^ 16 + seq

/-- Assigning all seven fields of the first word of an `RtpHeader`, in the order of
the struct declaration. -/
def rtpSetWord0 (v p x cc m pt seq : Nat) (mem : Nat) : Nat :=
  writeField RtpHeader .Version v <|
  writeField RtpHeader .Padding p <|
  writeField RtpHeader .Extension x <|
  writeField RtpHeader .CsrcCount cc <|
  writeField RtpHeader .Marked m <|
  writeField RtpHeader .PayloadType pt <|
  writeField RtpHeader .SequenceNumber seq mem

/-! ## `union RtcpHeader` (RTP.h, lines 60-84) -/

/-- Members of the struct `General` of `union RtcpHeader`. -/
inductive RtcpGeneralField
  | Length
  | Type_
  | RC
  | Padding
  | Version
  | Ssrc
  | Data (i : Fin 5)
  deriving DecidableEq, Repr

/-- Members of the struct `Feedback` of `union RtcpHeader`. -/
inductive RtcpFeedbackField
  | Length
  | Type_
  | Fmt
  | Padding
  | Version
  | Ssrc
  | TimestampHigh
  | TimestampLow
  | RtpTimestamp
  | Packets
  | Octets
  deriving DecidableEq, Repr

/-- The packed struct `RtcpHeader::General`, in declaration order. -/
def RtcpHeader_General : Layout RtcpGeneralField :=
  [ (.Length, 16),           -- unsigned short int Length
    (.Type_, 8),             -- unsigned int Type:8
    (.RC, 5),                -- unsigned int RC:5
    (.Padding, 1),           -- unsigned int Padding:1
    (.Version, 2),           -- unsigned int Version:2
    (.Ssrc, 32),             -- unsigned int Ssrc
    (.Data 0, 32),           -- unsigned int Data[5]
    (.Data 1, 32),
    (.Data 2, 32),
    (.Data 3, 32),
    (.Data 4, 32) ]

/-- The packed struct `RtcpHeader::Feedback`, in declaration order. -/
def RtcpHeader_Feedback : Layout RtcpFeedbackField :=
  [ (.Length, 16),           -- unsigned short int Length
    (.Type_, 8),             -- unsigned int Type:8
    (.Fmt, 5),               -- unsigned int Fmt:5
    (.Padding, 1),           -- unsigned int Padding:1
    (.Version, 2),           -- unsigned int Version:2
    (.Ssrc, 32),             -- unsigned int Ssrc
    (.TimestampHigh, 32),    -- unsigned int TimestampHigh
    (.TimestampLow, 32),     -- unsigned int TimestampLow
    (.RtpTimestamp, 32),     -- unsigned int RtpTimestamp
    (.Packets, 32),          -- unsigned int Packets
    (.Octets, 32) ]          -- unsigned int Octets

/-- Number of elements of `uint32_t Data[7]` in `union RtcpHeader`. -/
def RtcpHeader_DataLen : Nat := 7

/-- `RTCP_HEADER_SIZE`, i.e. `sizeof(RtcpHeader)`: the largest of the three union members. -/
def RTCP_HEADER_SIZE : Nat :=
  max (max (sizeofPacked RtcpHeader_General) (sizeofPacked RtcpHeader_Feedback))
    (sizeofData RtcpHeader_DataLen)

/-! ## `Condition` (HBCondition.cpp) -/

/-- The platform macro the file is compiled under. -/
inductive Build
  | LINUX
  | APPLE
  | BSD
  | WIN32
  | WIN64
  deriving DecidableEq, Repr

/-- The guard `defined(LINUX) || defined(APPLE) || defined(BSD)`. -/
def Build.isPosix : Build → Bool
  | .LINUX => true
  | .APPLE => true
  | .BSD => true
  | _ => false

/-- The guard `defined(WIN32) || defined(WIN64)`. -/
def Build.isWindows : Build → Bool
  | .WIN32 => true
  | .WIN64 => true
  | _ => false

/-- Log levels of `Logger.h` used by the modelled code. -/
inductive LogLevel
  | LOG_ERROR
  | LOG_WARN
  | LOG_VERBOSE
  deriving DecidableEq, Repr

/-- The mutex a pthread call is made on. -/
inductive MutexRef
  | pMutex (addr : Nat)    -- `pMutex->mMutex` of the caller's `Mutex` at `addr`
  | tMutex                 -- the local `pthread_mutex_t tMutex` of `Condition::Wait`
  deriving DecidableEq, Repr

/-- The C `struct timespec`. -/
structure timespec where
  tv_sec : Int
  tv_nsec : Int
  deriving DecidableEq, Repr

/-- One call that leaves the modelled code: an OS call, a log call, or `exit`. -/
inductive Call
  | LOG (level : LogLevel) (format : String) (args : List Int)
  | clock_gettime                        -- clock_gettime(CLOCK_REALTIME, &tTimeout)
  | clock_get_time                       -- the Apple sequence around clock_get_time
  | PTHREAD_MUTEX_INITIALIZER (m : MutexRef)
  | pthread_mutex_lock (m : MutexRef)
  | pthread_mutex_unlock (m : MutexRef)
  | pthread_mutex_destroy (m : MutexRef)
  | pthread_cond_timedwait (m : MutexRef) (abstime : timespec)
  | pthread_cond_wait (m : MutexRef)
  | WaitForSingleObject (dwMilliseconds : Nat)
  | pthread_cond_init
  | pthread_cond_destroy
  | pthread_cond_signal
  | pthread_cond_broadcast
  | CreateEvent (bManualReset : Bool) (bInitialState : Bool)
  | CloseHandle
  | SetEvent
  | ResetEvent
  | LOGEX (level : LogLevel) (format : String) (args : List String)
  | GetStackTrace                        -- System::GetStackTrace()
  | exit (status : Int)
  deriving DecidableEq, Repr

/-- Value of `EDEADLK` in `<errno.h>` of the platform. -/
def EDEADLK : Build → Int
  | .LINUX => 35
  | .APPLE => 11
  | .BSD => 11
  | _ => 36

/-- Value of `EBUSY` in `<errno.h>`. -/
def EBUSY : Build → Int := fun _ => 16

/-- Value of `EINVAL` in `<errno.h>`. -/
def EINVAL : Build → Int := fun _ => 22

/-- Value of `EFAULT` in `<errno.h>`. -/
def EFAULT : Build → Int := fun _ => 14

/-- Value of `ETIMEDOUT` in `<errno.h>` of the platform. -/
def ETIMEDOUT : Build → Int
  | .LINUX => 110
  | .APPLE => 60
  | .BSD => 60
  | _ => 138

/-- The Windows constant `INFINITE` (a `DWORD`). -/
def INFINITE : Nat := 0xFFFFFFFF

/-- The Windows constant `WAIT_OBJECT_0`. -/
def WAIT_OBJECT_0 : Int := 0

/-- The Windows constant `WAIT_TIMEOUT`. -/
def WAIT_TIMEOUT : Int := 0x102

/-- Wrap-around of a mathematical integer to a 32-bit `int`. -/
def int32 (x : Int) : Int := (x + 2 ^ 31) % 2 ^ 32 - 2 ^ 31

/-- Wrap-around of a mathematical integer to a 64-bit `long`. -/
def int64 (x : Int) : Int := (x + 2 ^ 63) % 2 ^ 64 - 2 ^ 63

/-- Conversion of an `int` to a `DWORD` (32-bit unsigned). -/
def toDWORD (x : Int) : Nat := (x % 2 ^ 32).toNat

/-- What the operating system answers to the calls of one operation. -/
structure OS where
  /-- Return value of `clock_gettime`. -/
  clock_rc : Int
  /-- Contents of `tTimeout` after the clock has been read. -/
  now : timespec
  /-- Return value of `pthread_cond_timedwait`, `pthread_cond_wait` or
  `WaitForSingleObject`. -/
  wait_rc : Int
  deriving Repr

/-- A C return value together with the calls issued, in program order. -/
structure Ret where
  value : Bool
  calls : List Call
  deriving DecidableEq, Repr

/-- The expression `pTime * 1000 * 1000`, evaluated in `int` (line 93). -/
def Wait_nsecIncrement (pTime : Int) : Int := int32 (int32 (pTime * 1000) * 1000)

/-- The statement `tTimeout.tv_nsec += pTime * 1000 * 1000;` (line 93): the value of
`tTimeout` handed to `pthread_cond_timedwait`. -/
def Wait_deadline (now : timespec) (pTime : Int) : timespec :=
  { now with tv_nsec := int64 (now.tv_nsec + Wait_nsecIncrement pTime) }

/-- Reading the clock into `tTimeout` (lines 77-90). -/
def Wait_readClock (b : Build) (os : OS) : List Call :=
  match b with
  | .APPLE => [.clock_get_time]
  | _ =>
    if os.clock_rc = -1 then
      [.clock_gettime, .LOG .LOG_ERROR "Failed to get time from clock" []]
    else
      [.clock_gettime]

/-- The `switch(tRes)` after `pthread_cond_timedwait` (lines 108-130): the new value
of `tResult` (initially `false`) and the log calls. -/
def Wait_switchTimed (b : Build) (tRes : Int) : Bool × List Call :=
  if tRes = EDEADLK b then
    (false, [.LOG .LOG_ERROR "Condition already held by calling thread" []])
  else if tRes = EBUSY b then
    (false, [])
  else if tRes = EINVAL b then
    (false, [.LOG .LOG_ERROR "Condition was found in uninitialized state" []])
  else if tRes = EFAULT b then
    (false, [.LOG .LOG_ERROR "Invalid condition pointer was given" []])
  else if tRes = ETIMEDOUT b then
    (false, [.LOG .LOG_WARN "Condition couldn't be obtained in given time.\n" []])
  else if tRes = 0 then
    (true, [])
  else
    (false, [.LOG .LOG_ERROR "Error occurred while trying to get condition: code %d" [tRes]])

/-- The `switch(tRes)` after `pthread_cond_wait` (lines 134-153). -/
def Wait_switchUntimed (b : Build) (tRes : Int) : Bool × List Call :=
  if tRes = EDEADLK b then
    (false, [.LOG .LOG_ERROR "Condition already held by calling thread" []])
  else if tRes = EBUSY b then
    (false, [])
  else if tRes = EINVAL b then
    (false, [.LOG .LOG_ERROR "Condition was found in uninitialized state" []])
  else if tRes = EFAULT b then
    (false, [.LOG .LOG_ERROR "Invalid condition pointer was given" []])
  else if tRes = 0 then
    (true, [])
  else
    (false, [.LOG .LOG_ERROR "Error occurred while trying to get condition: code %d" [tRes]])

/-- The POSIX branch of `Condition::Wait` (lines 74-158). `pMutex = none` is the
null pointer. -/
def Wait_posix (b : Build) (os : OS) (pMutex : Option Nat) (pTime : Int) : Ret :=
  let clock := Wait_readClock b os
  let tTimeout := Wait_deadline os.now pTime
  match pMutex with
  | some addr =>
    if pTime > 0 then
      ⟨decide (os.wait_rc = 0), clock ++ [.pthread_cond_timedwait (.pMutex addr) tTimeout]⟩
    else
      ⟨decide (os.wait_rc = 0), clock ++ [.pthread_cond_wait (.pMutex addr)]⟩
  | none =>
    let pre := clock ++ [.PTHREAD_MUTEX_INITIALIZER .tMutex, .pthread_mutex_lock .tMutex]
    if pTime > 0 then
      let sw := Wait_switchTimed b os.wait_rc
      ⟨sw.1, pre ++ [.pthread_cond_timedwait .tMutex tTimeout] ++ sw.2
                ++ [.pthread_mutex_destroy .tMutex]⟩
    else
      let sw := Wait_switchUntimed b os.wait_rc
      ⟨sw.1, pre ++ [.pthread_cond_wait .tMutex] ++ sw.2
                ++ [.pthread_mutex_destroy .tMutex]⟩

/-- The Windows branch of `Condition::Wait` (lines 160-162). -/
def Wait_windows (os : OS) (pTime : Int) : Ret :=
  ⟨decide (os.wait_rc = WAIT_OBJECT_0),
    [.WaitForSingleObject (if pTime = 0 then INFINITE else toDWORD pTime)]⟩

/-- The method `bool Condition::Wait(Mutex *pMutex, int pTime)` (lines 72-163). -/
def Condition.Wait (b : Build) (os : OS) (pMutex : Option Nat) (pTime : Int) : Ret :=
  if b.isPosix then Wait_posix b os pMutex pTime else Wait_windows os pTime

/-- What the program knows of the OS object behind `mCondition`. -/
inductive CondObj
  | invalid                        -- not (successfully) initialised
  | ready (signalled : Bool)       -- initialised; whether it is in the signalled state
  deriving DecidableEq, Repr

/-- Effect of `pthread_cond_init(&mCondition, NULL)` returning `rc`: on success the
object is a freshly initialised, unsignalled condition variable. -/
def os_pthread_cond_init (rc : Int) (obj : CondObj) : CondObj :=
  if rc = 0 then .ready false else obj

/-- Effect of `CreateEvent(NULL, bManualReset, bInitialState, NULL)` returning
`handle` (0 is `NULL`). -/
def os_CreateEvent (bInitialState : Bool) (handle : Int) : CondObj :=
  if handle ≠ 0 then .ready bInitialState else .invalid

/-- Effect of `ResetEvent(mCondition)` returning the `BOOL` `rc`: on success the event
is nonsignalled. -/
def os_ResetEvent (rc : Int) (obj : CondObj) : CondObj :=
  if rc ≠ 0 then .ready false else obj

set_option linter.dupNamespace false in
/-- The constructor `Condition::Condition()` (lines 43-55), run on the storage `garbage`
of the new object. `rc` is the return value of `pthread_cond_init`, respectively the
handle returned by `CreateEvent`. Returns `tResult`, the calls, and `mCondition`. -/
def Condition.Condition (b : Build) (rc : Int) (garbage : CondObj) : Ret × CondObj :=
  let r : Bool × List Call × CondObj :=
    if b.isPosix then
      (decide (rc = 0), [.pthread_cond_init], os_pthread_cond_init rc garbage)
    else
      (decide (rc ≠ 0), [.CreateEvent true false], os_CreateEvent false rc)
  if !r.1 then
    (⟨r.1, r.2.1 ++ [.LOG .LOG_ERROR "Initiation of condition failed" []]⟩, r.2.2)
  else
    (⟨r.1, r.2.1⟩, r.2.2)

/-- The method `bool Condition::SignalOne()` (lines 165-173). `rc` is the return value
of the OS call. -/
def Condition.SignalOne (b : Build) (rc : Int) : Ret :=
  if b.isPosix then ⟨decide (rc = 0), [.pthread_cond_signal]⟩
  else ⟨decide (rc ≠ 0), [.SetEvent]⟩

/-- The method `bool Condition::SignalAll()` (lines 175-183). -/
def Condition.SignalAll (b : Build) (rc : Int) : Ret :=
  if b.isPosix then ⟨decide (rc = 0), [.pthread_cond_broadcast]⟩
  else ⟨decide (rc ≠ 0), [.SetEvent]⟩

/-- The method `bool Condition::Reset()` (lines 185-193) on a Condition whose
`mCondition` is `obj`. `rc` is the return value of the OS call. -/
def Condition.Reset (b : Build) (rc : Int) (obj : CondObj) : Ret × CondObj :=
  if b.isPosix then
    (⟨decide (rc = 0), [.pthread_cond_init]⟩, os_pthread_cond_init rc obj)
  else
    (⟨decide (rc ≠ 0), [.ResetEvent]⟩, os_ResetEvent rc obj)

/-- Whether a call is a log call. -/
def Call.isLog : Call → Bool
  | .LOG _ _ _ => true
  | _ => false

/-- Whether a call terminates the process. -/
def Call.isExit : Call → Bool
  | .exit _ => true
  | _ => false

/-- Whether a call is a wait on the condition without a time bound. -/
def Call.isUntimedWait : Call → Bool
  | .pthread_cond_wait _ => true
  | .WaitForSingleObject ms => decide (ms = INFINITE)
  | _ => false

/-- Whether a call is a wait on the condition bounded in time. -/
def Call.isTimedWait : Call → Bool
  | .pthread_cond_timedwait _ _ => true
  | .WaitForSingleObject ms => decide (ms ≠ INFINITE)
  | _ => false

/-- The mutex a call operates on, if any. -/
def Call.mutex? : Call → Option MutexRef
  | .PTHREAD_MUTEX_INITIALIZER m => some m
  | .pthread_mutex_lock m => some m
  | .pthread_mutex_unlock m => some m
  | .pthread_mutex_destroy m => some m
  | .pthread_cond_timedwait m _ => some m
  | .pthread_cond_wait m => some m
  | _ => none

/-- The log calls issued after the wait call has returned. -/
def logsAfterWait (calls : List Call) : List Call :=
  (calls.dropWhile fun c => !(c.isTimedWait || c.isUntimedWait)).filter Call.isLog

/-- Validity of a `timespec` as POSIX requires of `abstime`: `0 <= tv_nsec < 10^9`. -/
def timespec.valid (t : timespec) : Prop := 0 ≤ t.tv_nsec ∧ t.tv_nsec < 1000000000

instance (t : timespec) : Decidable t.valid := by
  unfold timespec.valid; exact inferInstance

/-- The instant a `timespec` denotes, in nanoseconds. -/
def timespec.nanos (t : timespec) : Int := t.tv_sec * 1000000000 + t.tv_nsec

/-- The mutex argument of the wait call: the caller's mutex when one is supplied,
the local `tMutex` otherwise. -/
def Wait_mutexArg : Option Nat → MutexRef
  | some addr => .pMutex addr
  | none => .tMutex

/-- Success of the OS call made by `Condition::Reset`, by the convention of the API:
`pthread_cond_init` returns 0 on success, `ResetEvent` a nonzero `BOOL`. -/
def Reset_osSuccess (b : Build) (rc : Int) : Prop :=
  if b.isPosix then rc = 0 else rc ≠ 0

/-- Success of the OS call made by the constructor, by the convention of the API:
`pthread_cond_init` returns 0 on success, `CreateEvent` a handle other than `NULL`. -/
def Condition_osSuccess (b : Build) (rc : Int) : Prop :=
  if b.isPosix then rc = 0 else rc ≠ 0

instance (b : Build) (rc : Int) : Decidable (Reset_osSuccess b rc) := by
  unfold Reset_osSuccess; exact inferInstance

instance (b : Build) (rc : Int) : Decidable (Condition_osSuccess b rc) := by
  unfold Condition_osSuccess; exact inferInstance

/-- State of a pthread mutex, as the calls made on it determine it. -/
inductive MutexState
  | uninitialised
  | unlocked
  | locked
  | destroyed
  deriving DecidableEq, Repr

/-- Effect of one call on the state of the mutex `m`. A wait on the condition releases
the mutex while it blocks and returns with the mutex re-acquired, i.e. locked. -/
def os_mutexStep (m : MutexRef) (s : MutexState) : Call → MutexState
  | .PTHREAD_MUTEX_INITIALIZER m' => if m' = m then .unlocked else s
  | .pthread_mutex_lock m' => if m' = m then .locked else s
  | .pthread_mutex_unlock m' => if m' = m then .unlocked else s
  | .pthread_cond_timedwait m' _ => if m' = m then .locked else s
  | .pthread_cond_wait m' => if m' = m then .locked else s
  | .pthread_mutex_destroy m' => if m' = m then .destroyed else s
  | _ => s

/-- The states in which the mutex `m` is found by the calls of `pthread_mutex_destroy`
on it, when `calls` are run from the state `s`. -/
def statesAtDestroy (m : MutexRef) : MutexState → List Call → List MutexState
  | _, [] => []
  | s, c :: cs =>
    (if c = Call.pthread_mutex_destroy m then [s] else [])
      ++ statesAtDestroy m (os_mutexStep m s c) cs

/-- Number of the `waiters` blocked on the condition object that a signalling call
releases, by the documented semantics of the OS call: `pthread_cond_signal` releases one
waiter, `pthread_cond_broadcast` all of them; `SetEvent` releases all waiters of a
manual-reset event and one waiter of an auto-reset event. -/
def os_released (bManualReset : Bool) (waiters : Nat) : Call → Nat
  | .pthread_cond_signal => min 1 waiters
  | .pthread_cond_broadcast => waiters
  | .SetEvent => if bManualReset then waiters else min 1 waiters
  | _ => 0

/-! ## Signal handling (main.cpp) -/

/-- Value of `SIGILL` in `<signal.h>` (POSIX numbering). -/
def SIGILL : Int := 4

/-- Value of `SIGABRT` in `<signal.h>` (POSIX numbering). -/
def SIGABRT : Int := 6

/-- Value of `SIGFPE` in `<signal.h>` (POSIX numbering). -/
def SIGFPE : Int := 8

/-- Value of `SIGSEGV` in `<signal.h>` (POSIX numbering). -/
def SIGSEGV : Int := 11

/-- Value of `SIGTERM` in `<signal.h>` (POSIX numbering). -/
def SIGTERM : Int := 15

/-- The function `void GetSignalDescription(int pSignal, string &pSignalName,
string &pSignalDescription)` (main.cpp, lines 48-131): the values assigned to the two
output parameters. -/
def GetSignalDescription (pSignal : Int) : String × String :=
  match pSignal with
  | 1 => ("SIGHUP", "hangup detected on controlling terminal or death of controlling process")
  | 2 => ("SIGINT", "interrupt from keyboard")
  | 3 => ("SIGQUIT", "quit from keyboard")
  | 4 => ("SIGILL", "illegal Instruction")
  | 6 => ("SIGABRT", "abort signal from abort()")
  | 8 => ("SIGFPE", "floating point exception")
  | 9 => ("SIGKILL", "kill signal")
  | 10 => ("SIGBUS", "bus error")
  | 11 => ("SIGSEGV", "invalid memory reference")
  | 12 => ("SIGSYS", "bad argument to system call")
  | 13 => ("SIGPIPE", "broken pipe: write to pipe with no readers")
  | 14 => ("SIGALRM", "timer signal from alarm()")
  | 15 => ("SIGTERM", "termination signal")
  | 18 => ("SIGCONT", "continue signal from tty")
  | 19 => ("SIGSTOP", "stop signal from tty")
  | 20 => ("SIGTSTP", "stop signal from user (keyboard)")
  | 16 => ("SIGUSR1", "user-defined signal 1")
  | 30 => ("SIGUSR1", "user-defined signal 1")
  | 17 => ("SIGUSR2", "user-defined signal 2")
  | 31 => ("SIGUSR2", "user-defined signal 2")
  | _ => ("unsupported signal", "unsupported signal occurred")

/-- The function `void HandleExceptionSignal(int pSignal)` (main.cpp, lines 142-169):
the calls it issues, `tStackTrace` being what `System::GetStackTrace()` returns. The
list ends with `exit` when the process is terminated; an empty list is a plain return. -/
def HandleExceptionSignal (pSignal : Int) (tStackTrace : List String) : List Call :=
  if pSignal = SIGILL ∨ pSignal = SIGFPE ∨ pSignal = SIGSEGV ∨ pSignal = SIGTERM
      ∨ pSignal = SIGABRT then
    [.GetStackTrace, .LOGEX .LOG_ERROR "Stack trace:" []]
      ++ tStackTrace.map (fun tIt => Call.LOGEX .LOG_ERROR "   %s" [tIt])
      ++ [ .LOGEX .LOG_ERROR "" [],
           .LOGEX .LOG_ERROR
             "Homer Conferencing will exit now. Please, report this to the Homer development team."
             [],
           .LOGEX .LOG_ERROR "-" [],
           .LOGEX .LOG_ERROR
             "Restart Homer Conferencing via \"Homer -DebugOutputFile=debug.log\" to generate verbose debug data."
             [],
           .LOGEX .LOG_ERROR
             "Afterwards attach the file debug.log to your bug report and send both by mail to homer@homer-conferencing.com."
             [],
           .LOGEX .LOG_ERROR " " [] ]
      ++ [.exit 0]
  else
    []

/-! ## RTP depacketizer and H.261 packetizer (class `RTP`)

RTP.h declares `RtpParse`, `GetLostPacketsFromRTP`, `RtpCreateH261` and the members they
work on; their bodies are in RTP.cpp, which is not among the sources. The definitions of
this section follow the specification. The `uint64_t` counters are natural numbers
without wrap-around: they start below 2^16 and grow by less than 2^15 per packet. -/

/-- Modelled from the spec: the sequence-number and loss-accounting part of the
depacketization session state; the body of `RTP::RtpParse` that maintains it is missing.
The member names are those declared in RTP.h, lines 189-210: the extended sequence
number, the last 16-bit header sequence number, the overflow shift, the count of
consecutive wraps, the start sequence number, and the received and lost packet counts. -/
structure RtpState where
  mRemoteSequenceNumber : Nat
  mLastSequenceNumberFromRTPHeader : Nat
  mRemoteSequenceNumberOverflowShift : Nat
  mRemoteSequenceNumberConsecutiveOverflows : Nat
  mRemoteStartSequenceNumber : Nat
  mReceivedPackets : Nat
  mLostPackets : Nat
  deriving DecidableEq, Repr

/-- Modelled from the spec: `delta = (hdrSeq - lastHdrSeq) mod 2^16` of the missing
`RTP::RtpParse`. -/
def RtpParse_delta (hdrSeq lastHdrSeq : Nat) : Nat :=
  (((hdrSeq : Int) - (lastHdrSeq : Int)) % 65536).toNat

/-- Modelled from the spec: the loss accounting of the missing `RTP::RtpParse`,
`lostPackets = max(0, extendedSeq - startSeq + 1 - receivedPackets)`. -/
def RtpParse_lost (extendedSeq startSeq receivedPackets : Nat) : Nat :=
  (max 0 ((extendedSeq : Int) - (startSeq : Int) + 1 - (receivedPackets : Int))).toNat

/-- Modelled from the spec: the sequence-number step of the missing `RTP::RtpParse` for
one packet of a stable source with header sequence number `hdrSeq`; `none` is the state
before the first packet. Returns the new state and whether the packet was accepted.
The first packet latches the start sequence number. Afterwards, with
`delta = (hdrSeq - lastHdrSeq) mod 2^16`: `delta = 0` is a duplicate and is dropped;
`delta` in `[1, 2^15)` is an in-order advancement, `extendedSeq += delta`, and when
`hdrSeq < lastHdrSeq` a wrap is declared, `overflowShift += 2^16`; `delta` in
`[2^15, 2^16)` is a late arrival, accepted with `extendedSeq` unchanged and counted
against loss recovery: while a lost packet is outstanding it is counted as received,
which takes one packet off the loss, and with no loss outstanding it changes no counter.
The spec leaves open how a late arrival is counted and whether it replaces `lastHdrSeq`;
the model counts it so that the invariant of spec section 3,
`lostPackets == (extendedSeq - startSeq + 1) - receivedPackets`, is not contradicted, and
keeps `lastHdrSeq`. After every counted packet the lost-packet count is recomputed. -/
def RtpParse_sequence (st : Option RtpState) (hdrSeq : Nat) : Option RtpState × Bool :=
  match st with
  | none =>
    (some { mRemoteSequenceNumber := hdrSeq
            mLastSequenceNumberFromRTPHeader := hdrSeq
            mRemoteSequenceNumberOverflowShift := 0
            mRemoteSequenceNumberConsecutiveOverflows := 0
            mRemoteStartSequenceNumber := hdrSeq
            mReceivedPackets := 1
            mLostPackets := RtpParse_lost hdrSeq hdrSeq 1 }, true)
  | some s =>
    let delta := RtpParse_delta hdrSeq s.mLastSequenceNumberFromRTPHeader
    if delta = 0 then
      (some s, false)
    else if delta < 32768 then
      let wrap : Bool := decide (hdrSeq < s.mLastSequenceNumberFromRTPHeader)
      let ext := s.mRemoteSequenceNumber + delta
      (some { s with
                mRemoteSequenceNumber := ext
                mLastSequenceNumberFromRTPHeader := hdrSeq
                mRemoteSequenceNumberOverflowShift :=
                  if wrap then s.mRemoteSequenceNumberOverflowShift + 65536
                  else s.mRemoteSequenceNumberOverflowShift
                mRemoteSequenceNumberConsecutiveOverflows :=
                  if wrap then s.mRemoteSequenceNumberConsecutiveOverflows + 1 else 0
                mReceivedPackets := s.mReceivedPackets + 1
                mLostPackets :=
                  RtpParse_lost ext s.mRemoteStartSequenceNumber (s.mReceivedPackets + 1) },
        true)
    else if 0 < s.mLostPackets then
      (some { s with
                mReceivedPackets := s.mReceivedPackets + 1
                mLostPackets :=
                  RtpParse_lost s.mRemoteSequenceNumber s.mRemoteStartSequenceNumber
                    (s.mReceivedPackets + 1) },
        true)
    else
      (some s, true)

/-- The states after each accepted packet when the packets with the header sequence
numbers `hdrSeqs` are parsed one after the other, starting in state `st`. -/
def RtpParse_run : Option RtpState → List Nat → List RtpState
  | _, [] => []
  | st, hdrSeq :: rest =>
    match RtpParse_sequence st hdrSeq with
    | (some st', true) => st' :: RtpParse_run (some st') rest
    | (st', _) => RtpParse_run st' rest

/-- Modelled from the spec: one RTP packet as the missing `RTP::RtpCreateH261` emits it:
marker bit, 16-bit sequence number, RTP timestamp and payload bytes. -/
structure RtpPacket where
  Marked : Bool
  SequenceNumber : Nat
  Timestamp : Nat
  payload : List Nat
  deriving DecidableEq, Repr

/-- Modelled from the spec: the fragmentation loop of the missing `RTP::RtpCreateH261`.
While frame bytes remain it cuts off at most `pMax` (`mH261PayloadSizeMax`) of them,
emits them with the sequence number `pSeq` (`mH261LocalSequenceNumber`), the frame's
timestamp and marker 1 exactly when nothing remains, and increments the sequence number
modulo 2^16. `fuel` bounds the number of iterations. Returns the packets and the
sequence number after the last of them. -/
def RtpCreateH261_loop : Nat → Nat → Nat → Nat → List Nat → List RtpPacket × Nat
  | 0, _, pSeq, _, _ => ([], pSeq)
  | fuel + 1, pMax, pSeq, pTimestamp, pData =>
    if pData = [] then
      ([], pSeq)
    else
      let tRest := pData.drop pMax
      let tPacket : RtpPacket :=
        { Marked := decide (tRest = [])
          SequenceNumber := pSeq
          Timestamp := pTimestamp
          payload := pData.take pMax }
      let r := RtpCreateH261_loop fuel pMax ((pSeq + 1) % 65536) pTimestamp tRest
      (tPacket :: r.1, r.2)

/-- Modelled from the spec: the missing `RTP::RtpCreateH261` on a frame `pData` with
maximum payload size `pMax`, local sequence number `pSeq` and RTP timestamp
`pTimestamp`; one iteration per frame byte is always enough fuel when `pMax > 0`. -/
def RtpCreateH261 (pMax pSeq pTimestamp : Nat) (pData : List Nat) : List RtpPacket × Nat :=
  RtpCreateH261_loop pData.length pMax pSeq pTimestamp pData

/-! ## Lemmas on the packed layout -/

/-- Replacing the `w` bits at offset `off` leaves the bits below and the bits above. -/
theorem setBits_frame (mem off w v : Nat) :
    (mem - (mem / 2 ^ off % 2 ^ w) * 2 ^ off + (v % 2 ^ w) * 2 ^ off) % 2 ^ off = mem % 2 ^ off ∧
    (mem - (mem / 2 ^ off % 2 ^ w) * 2 ^ off + (v % 2 ^ w) * 2 ^ off) / 2 ^ off / 2 ^ w
      = mem / 2 ^ off / 2 ^ w ∧
    (mem - (mem / 2 ^ off % 2 ^ w) * 2 ^ off + (v % 2 ^ w) * 2 ^ off) / 2 ^ off % 2 ^ w
      = v % 2 ^ w := by
  have hA : 0 < 2 ^ off := Nat.pos_pow_of_pos _ (by decide)
  have hB : 0 < 2 ^ w := Nat.pos_pow_of_pos _ (by decide)
  generalize 2 ^ off = A at *
  generalize 2 ^ w = B at *
  have hv : v % B < B := Nat.mod_lt _ hB
  generalize v % B = v' at *
  have h1 : mem = mem / A % B * A + (mem / A / B * B * A + mem % A) := by
    have e1 := Nat.div_add_mod mem A
    have e2 := Nat.div_add_mod (mem / A) B
    nlinarith
  have h2 : mem - mem / A % B * A = mem / A / B * B * A + mem % A := by
    omega
  rw [h2]
  have h3 : mem / A / B * B * A + mem % A + v' * A
      = mem % A + A * (v' + B * (mem / A / B)) := by ring
  rw [h3]
  refine ⟨?_, ?_, ?_⟩
  · rw [Nat.add_mul_mod_self_left, Nat.mod_mod]
  · rw [Nat.add_mul_div_left _ _ hA, Nat.div_eq_of_lt (Nat.mod_lt _ hA), Nat.zero_add,
      Nat.add_mul_div_left _ _ hB, Nat.div_eq_of_lt hv, Nat.zero_add]
  · rw [Nat.add_mul_div_left _ _ hA, Nat.div_eq_of_lt (Nat.mod_lt _ hA), Nat.zero_add,
      Nat.add_mul_mod_self_left, Nat.mod_eq_of_lt hv]

/-- Replacing the `w` bits at offset `off` does not change a bit range disjoint from them. -/
theorem setBits_other (mem off w v off2 w2 : Nat)
    (h : off2 + w2 ≤ off ∨ off + w ≤ off2) :
    (mem - (mem / 2 ^ off % 2 ^ w) * 2 ^ off + (v % 2 ^ w) * 2 ^ off) / 2 ^ off2 % 2 ^ w2
      = mem / 2 ^ off2 % 2 ^ w2 := by
  obtain ⟨hlo, hhi, _⟩ := setBits_frame mem off w v
  generalize (mem - (mem / 2 ^ off % 2 ^ w) * 2 ^ off + (v % 2 ^ w) * 2 ^ off) = mem2 at *
  rcases h with h | h
  · -- the range lies below the written one
    have e : ∀ x : Nat, x / 2 ^ off2 % 2 ^ w2 = x % 2 ^ off % 2 ^ (off2 + w2) / 2 ^ off2 := by
      intro x
      rw [Nat.mod_mod_of_dvd _ (pow_dvd_pow 2 h), pow_add, Nat.mod_mul_right_div_self]
    rw [e mem2, e mem, hlo]
  · -- the range lies above the written one
    have e : ∀ x : Nat, x / 2 ^ off2 = x / 2 ^ off / 2 ^ w / 2 ^ (off2 - (off + w)) := by
      intro x
      rw [Nat.div_div_eq_div_mul, Nat.div_div_eq_div_mul, ← pow_add, ← pow_add]
      congr 2
      omega
    rw [e mem2, e mem, hhi]

/-- A member reads back the value assigned to it, truncated to its width. -/
theorem readField_writeField_same {α : Type} [DecidableEq α] (l : Layout α) (f : α)
    (v mem : Nat) :
    readField l f (writeField l f v mem) = v % 2 ^ bitWidth l f := by
  unfold writeField readField
  exact (setBits_frame mem _ _ v).2.2

/-- Assigning one member does not change a member that occupies other bits. -/
theorem readField_writeField_other {α : Type} [DecidableEq α] (l : Layout α) (f g : α)
    (v mem : Nat)
    (h : bitOffset l g + bitWidth l g ≤ bitOffset l f ∨
         bitOffset l f + bitWidth l f ≤ bitOffset l g) :
    readField l g (writeField l f v mem) = readField l g mem := by
  unfold writeField readField
  exact setBits_other mem _ _ v _ _ h

/-- Bit offsets of the members of the `RtpHeader` struct. -/
theorem RtpHeader_offsets :
    bitOffset RtpHeader .SequenceNumber = 0 ∧ bitOffset RtpHeader .PayloadType = 16 ∧
    bitOffset RtpHeader .Marked = 23 ∧ bitOffset RtpHeader .CsrcCount = 24 ∧
    bitOffset RtpHeader .Extension = 28 ∧ bitOffset RtpHeader .Padding = 29 ∧
    bitOffset RtpHeader .Version = 30 ∧ bitOffset RtpHeader .Timestamp = 32 ∧
    bitOffset RtpHeader .Ssrc = 64 := by decide

/-- Bit widths of the members of the `RtpHeader` struct. -/
theorem RtpHeader_widths :
    bitWidth RtpHeader .SequenceNumber = 16 ∧ bitWidth RtpHeader .PayloadType = 7 ∧
    bitWidth RtpHeader .Marked = 1 ∧ bitWidth RtpHeader .CsrcCount = 4 ∧
    bitWidth RtpHeader .Extension = 1 ∧ bitWidth RtpHeader .Padding = 1 ∧
    bitWidth RtpHeader .Version = 2 ∧ bitWidth RtpHeader .Timestamp = 32 ∧
    bitWidth RtpHeader .Ssrc = 32 := by decide

/-- The first word of an `RtpHeader` is made of its seven leading members. -/
theorem RtpHeader_word0_split (mem : Nat) :
    dataWord mem 0 =
      readField RtpHeader .Version mem * 2 ^ 30 + readField RtpHeader .Padding mem * 2 ^ 29
      + readField RtpHeader .Extension mem * 2 ^ 28 + readField RtpHeader .CsrcCount mem * 2 ^ 24
      + readField RtpHeader .Marked mem * 2 ^ 23 + readField RtpHeader .PayloadType mem * 2 ^ 16
      + readField RtpHeader .SequenceNumber mem := by
  obtain ⟨o1, o2, o3, o4, o5, o6, o7, -, -⟩ := RtpHeader_offsets
  obtain ⟨w1, w2, w3, w4, w5, w6, w7, -, -⟩ := RtpHeader_widths
  simp only [readField, dataWord, o1, o2, o3, o4, o5, o6, o7, w1, w2, w3, w4, w5, w6, w7]
  norm_num
  omega

/-! ## RTP.h: the header unions -/

/-- C1. For every 32-bit word `w` that is `Data[0]` of an `RtpHeader` (whatever the other
two words `hi` are), the bit-fields read Version = bits 31..30, Padding = bit 29,
Extension = bit 28, CsrcCount = bits 27..24, Marked = bit 23, PayloadType = bits 22..16 and
SequenceNumber = bits 15..0 of `w`; and after assigning in-range values to the seven
members, each member reads back its value and `Data[0]` is the RFC 3550 word of them. -/
theorem RtpHeader_word0_is_rfc3550 (w hi v p x cc m pt seq : Nat) (hw : w < 2 ^ 32)
    (hv : v < 2 ^ 2) (hp : p < 2 ^ 1) (hx : x < 2 ^ 1) (hcc : cc < 2 ^ 4) (hm : m < 2 ^ 1)
    (hpt : pt < 2 ^ 7) (hseq : seq < 2 ^ 16) :
    (dataWord (w + 2 ^ 32 * hi) 0 = w ∧
     readField RtpHeader .Version (w + 2 ^ 32 * hi) = w / 2 ^ 30 % 2 ^ 2 ∧
     readField RtpHeader .Padding (w + 2 ^ 32 * hi) = w / 2 ^ 29 % 2 ^ 1 ∧
     readField RtpHeader .Extension (w + 2 ^ 32 * hi) = w / 2 ^ 28 % 2 ^ 1 ∧
     readField RtpHeader .CsrcCount (w + 2 ^ 32 * hi) = w / 2 ^ 24 % 2 ^ 4 ∧
     readField RtpHeader .Marked (w + 2 ^ 32 * hi) = w / 2 ^ 23 % 2 ^ 1 ∧
     readField RtpHeader .PayloadType (w + 2 ^ 32 * hi) = w / 2 ^ 16 % 2 ^ 7 ∧
     readField RtpHeader .SequenceNumber (w + 2 ^ 32 * hi) = w / 2 ^ 0 % 2 ^ 16) ∧
    (readField RtpHeader .Version (rtpSetWord0 v p x cc m pt seq (w + 2 ^ 32 * hi)) = v ∧
     readField RtpHeader .Padding (rtpSetWord0 v p x cc m pt seq (w + 2 ^ 32 * hi)) = p ∧
     readField RtpHeader .Extension (rtpSetWord0 v p x cc m pt seq (w + 2 ^ 32 * hi)) = x ∧
     readField RtpHeader .CsrcCount (rtpSetWord0 v p x cc m pt seq (w + 2 ^ 32 * hi)) = cc ∧
     readField RtpHeader .Marked (rtpSetWord0 v p x cc m pt seq (w + 2 ^ 32 * hi)) = m ∧
     readField RtpHeader .PayloadType (rtpSetWord0 v p x cc m pt seq (w + 2 ^ 32 * hi)) = pt ∧
     readField RtpHeader .SequenceNumber (rtpSetWord0 v p x cc m pt seq (w + 2 ^ 32 * hi))
       = seq ∧
     dataWord (rtpSetWord0 v p x cc m pt seq (w + 2 ^ 32 * hi)) 0
       = rfc3550Word0 v p x cc m pt seq) := by
  obtain ⟨o1, o2, o3, o4, o5, o6, o7, -, -⟩ := RtpHeader_offsets
  obtain ⟨w1, w2, w3, w4, w5, w6, w7, -, -⟩ := RtpHeader_widths
  constructor
  · simp only [readField, dataWord, o1, o2, o3, o4, o5, o6, o7, w1, w2, w3, w4, w5, w6, w7]
    norm_num at hw ⊢
    refine ⟨?_, ?_, ?_, ?_, ?_, ?_, ?_, ?_⟩ <;> omega
  · have r7 : readField RtpHeader .Version (rtpSetWord0 v p x cc m pt seq (w + 2 ^ 32 * hi))
        = v := by
      unfold rtpSetWord0
      rw [readField_writeField_same, w7, Nat.mod_eq_of_lt hv]
    have r6 : readField RtpHeader .Padding (rtpSetWord0 v p x cc m pt seq (w + 2 ^ 32 * hi))
        = p := by
      unfold rtpSetWord0
      rw [readField_writeField_other _ _ _ _ _ (by decide),
        readField_writeField_same, w6, Nat.mod_eq_of_lt hp]
    have r5 : readField RtpHeader .Extension (rtpSetWord0 v p x cc m pt seq (w + 2 ^ 32 * hi))
        = x := by
      unfold rtpSetWord0
      rw [readField_writeField_other _ _ _ _ _ (by decide),
        readField_writeField_other _ _ _ _ _ (by decide),
        readField_writeField_same, w5, Nat.mod_eq_of_lt hx]
    have r4 : readField RtpHeader .CsrcCount (rtpSetWord0 v p x cc m pt seq (w + 2 ^ 32 * hi))
        = cc := by
      unfold rtpSetWord0
      rw [readField_writeField_other _ _ _ _ _ (by decide),
        readField_writeField_other _ _ _ _ _ (by decide),
        readField_writeField_other _ _ _ _ _ (by decide),
        readField_writeField_same, w4, Nat.mod_eq_of_lt hcc]
    have r3 : readField RtpHeader .Marked (rtpSetWord0 v p x cc m pt seq (w + 2 ^ 32 * hi))
        = m := by
      unfold rtpSetWord0
      rw [readField_writeField_other _ _ _ _ _ (by decide),
        readField_writeField_other _ _ _ _ _ (by decide),
        readField_writeField_other _ _ _ _ _ (by decide),
        readField_writeField_other _ _ _ _ _ (by decide),
        readField_writeField_same, w3, Nat.mod_eq_of_lt hm]
    have r2 : readField RtpHeader .PayloadType
        (rtpSetWord0 v p x cc m pt seq (w + 2 ^ 32 * hi)) = pt := by
      unfold rtpSetWord0
      rw [readField_writeField_other _ _ _ _ _ (by decide),
        readField_writeField_other _ _ _ _ _ (by decide),
        readField_writeField_other _ _ _ _ _ (by decide),
        readField_writeField_other _ _ _ _ _ (by decide),
        readField_writeField_other _ _ _ _ _ (by decide),
        readField_writeField_same, w2, Nat.mod_eq_of_lt hpt]
    have r1 : readField RtpHeader .SequenceNumber
        (rtpSetWord0 v p x cc m pt seq (w + 2 ^ 32 * hi)) = seq := by
      unfold rtpSetWord0
      rw [readField_writeField_other _ _ _ _ _ (by decide),
        readField_writeField_other _ _ _ _ _ (by decide),
        readField_writeField_other _ _ _ _ _ (by decide),
        readField_writeField_other _ _ _ _ _ (by decide),
        readField_writeField_other _ _ _ _ _ (by decide),
        readField_writeField_other _ _ _ _ _ (by decide),
        readField_writeField_same, w1, Nat.mod_eq_of_lt hseq]
    refine ⟨r7, r6, r5, r4, r3, r2, r1, ?_⟩
    rw [RtpHeader_word0_split, r1, r2, r3, r4, r5, r6, r7]
    rfl

/-- Witness for C1: the word `0x80E01234` (version 2, marker set, payload type 96,
sequence number 0x1234) and the field values 2, 0, 0, 0, 1, 31, 65535. -/
theorem RtpHeader_word0_is_rfc3550_witness :
    (dataWord (0x80E01234 + 2 ^ 32 * 7) 0 = 0x80E01234 ∧
     readField RtpHeader .Version (0x80E01234 + 2 ^ 32 * 7) = 0x80E01234 / 2 ^ 30 % 2 ^ 2 ∧
     readField RtpHeader .Padding (0x80E01234 + 2 ^ 32 * 7) = 0x80E01234 / 2 ^ 29 % 2 ^ 1 ∧
     readField RtpHeader .Extension (0x80E01234 + 2 ^ 32 * 7) = 0x80E01234 / 2 ^ 28 % 2 ^ 1 ∧
     readField RtpHeader .CsrcCount (0x80E01234 + 2 ^ 32 * 7) = 0x80E01234 / 2 ^ 24 % 2 ^ 4 ∧
     readField RtpHeader .Marked (0x80E01234 + 2 ^ 32 * 7) = 0x80E01234 / 2 ^ 23 % 2 ^ 1 ∧
     readField RtpHeader .PayloadType (0x80E01234 + 2 ^ 32 * 7) = 0x80E01234 / 2 ^ 16 % 2 ^ 7 ∧
     readField RtpHeader .SequenceNumber (0x80E01234 + 2 ^ 32 * 7)
       = 0x80E01234 / 2 ^ 0 % 2 ^ 16) ∧
    (readField RtpHeader .Version (rtpSetWord0 2 0 0 0 1 31 65535 (0x80E01234 + 2 ^ 32 * 7)) = 2 ∧
     readField RtpHeader .Padding (rtpSetWord0 2 0 0 0 1 31 65535 (0x80E01234 + 2 ^ 32 * 7)) = 0 ∧
     readField RtpHeader .Extension (rtpSetWord0 2 0 0 0 1 31 65535 (0x80E01234 + 2 ^ 32 * 7)) = 0 ∧
     readField RtpHeader .CsrcCount (rtpSetWord0 2 0 0 0 1 31 65535 (0x80E01234 + 2 ^ 32 * 7)) = 0 ∧
     readField RtpHeader .Marked (rtpSetWord0 2 0 0 0 1 31 65535 (0x80E01234 + 2 ^ 32 * 7)) = 1 ∧
     readField RtpHeader .PayloadType (rtpSetWord0 2 0 0 0 1 31 65535 (0x80E01234 + 2 ^ 32 * 7))
       = 31 ∧
     readField RtpHeader .SequenceNumber (rtpSetWord0 2 0 0 0 1 31 65535 (0x80E01234 + 2 ^ 32 * 7))
       = 65535 ∧
     dataWord (rtpSetWord0 2 0 0 0 1 31 65535 (0x80E01234 + 2 ^ 32 * 7)) 0
       = rfc3550Word0 2 0 0 0 1 31 65535) :=
  RtpHeader_word0_is_rfc3550 0x80E01234 7 2 0 0 0 1 31 65535 (by decide) (by decide)
    (by decide) (by decide) (by decide) (by decide) (by decide) (by decide)

/-- C2. `RTP_HEADER_SIZE` is 12 octets; the packed struct and `Data[3]` both cover 96
bits; `Timestamp` is `Data[1]` and `Ssrc` is `Data[2]`; `Ssrc` is the last member and
ends where the header ends, so no CSRC list follows it. -/
theorem RTP_HEADER_SIZE_is_12 (mem : Nat) :
    RTP_HEADER_SIZE = 12 ∧
    sizeBits RtpHeader = 96 ∧ 8 * sizeofData RtpHeader_DataLen = 96 ∧
    readField RtpHeader .Timestamp mem = dataWord mem 1 ∧
    readField RtpHeader .Ssrc mem = dataWord mem 2 ∧
    RtpHeader.getLast? = some (RtpField.Ssrc, 32) ∧
    bitOffset RtpHeader .Ssrc + bitWidth RtpHeader .Ssrc = 8 * RTP_HEADER_SIZE := by
  refine ⟨by decide, by decide, by decide, ?_, ?_, by decide, by decide⟩
  · have o : bitOffset RtpHeader .Timestamp = 32 * 1 := by decide
    have w : bitWidth RtpHeader .Timestamp = 32 := by decide
    simp only [readField, dataWord, o, w]
  · have o : bitOffset RtpHeader .Ssrc = 32 * 2 := by decide
    have w : bitWidth RtpHeader .Ssrc = 32 := by decide
    simp only [readField, dataWord, o, w]

/-- C3. In the `Feedback` view of `RtcpHeader` the members `Ssrc`, `TimestampHigh`,
`TimestampLow`, `RtpTimestamp`, `Packets`, `Octets` are `Data[1]` .. `Data[6]`, in that
order; `RTCP_HEADER_SIZE` is 28 octets, i.e. 7 words, so the length in words minus one
is 6. -/
theorem RtcpHeader_Feedback_is_sender_report (mem : Nat) :
    readField RtcpHeader_Feedback .Ssrc mem = dataWord mem 1 ∧
    readField RtcpHeader_Feedback .TimestampHigh mem = dataWord mem 2 ∧
    readField RtcpHeader_Feedback .TimestampLow mem = dataWord mem 3 ∧
    readField RtcpHeader_Feedback .RtpTimestamp mem = dataWord mem 4 ∧
    readField RtcpHeader_Feedback .Packets mem = dataWord mem 5 ∧
    readField RtcpHeader_Feedback .Octets mem = dataWord mem 6 ∧
    RTCP_HEADER_SIZE = 28 ∧ RTCP_HEADER_SIZE = 4 * 7 ∧ RTCP_HEADER_SIZE / 4 - 1 = 6 := by
  have o1 : bitOffset RtcpHeader_Feedback .Ssrc = 32 * 1 := by decide
  have o2 : bitOffset RtcpHeader_Feedback .TimestampHigh = 32 * 2 := by decide
  have o3 : bitOffset RtcpHeader_Feedback .TimestampLow = 32 * 3 := by decide
  have o4 : bitOffset RtcpHeader_Feedback .RtpTimestamp = 32 * 4 := by decide
  have o5 : bitOffset RtcpHeader_Feedback .Packets = 32 * 5 := by decide
  have o6 : bitOffset RtcpHeader_Feedback .Octets = 32 * 6 := by decide
  have w1 : bitWidth RtcpHeader_Feedback .Ssrc = 32 := by decide
  have w2 : bitWidth RtcpHeader_Feedback .TimestampHigh = 32 := by decide
  have w3 : bitWidth RtcpHeader_Feedback .TimestampLow = 32 := by decide
  have w4 : bitWidth RtcpHeader_Feedback .RtpTimestamp = 32 := by decide
  have w5 : bitWidth RtcpHeader_Feedback .Packets = 32 := by decide
  have w6 : bitWidth RtcpHeader_Feedback .Octets = 32 := by decide
  simp only [readField, dataWord, o1, o2, o3, o4, o5, o6, w1, w2, w3, w4, w5, w6]
  refine ⟨trivial, trivial, trivial, trivial, trivial, trivial, ?_, ?_, ?_⟩ <;> decide

/-- C4. For every 32-bit word `w` that is `Data[0]` of an `RtcpHeader`, both views read
Version = bits 31..30, Padding = bit 29, RC / Fmt = bits 28..24, Type = bits 23..16 and
Length = bits 15..0 of `w`, and both read `Ssrc` from `Data[1]`; so the two views agree
on all six. -/
theorem RtcpHeader_views_agree (mem : Nat) :
    (readField RtcpHeader_General .Version mem = dataWord mem 0 / 2 ^ 30 % 2 ^ 2 ∧
     readField RtcpHeader_General .Padding mem = dataWord mem 0 / 2 ^ 29 % 2 ^ 1 ∧
     readField RtcpHeader_General .RC mem = dataWord mem 0 / 2 ^ 24 % 2 ^ 5 ∧
     readField RtcpHeader_General .Type_ mem = dataWord mem 0 / 2 ^ 16 % 2 ^ 8 ∧
     readField RtcpHeader_General .Length mem = dataWord mem 0 / 2 ^ 0 % 2 ^ 16 ∧
     readField RtcpHeader_General .Ssrc mem = dataWord mem 1) ∧
    (readField RtcpHeader_Feedback .Version mem = dataWord mem 0 / 2 ^ 30 % 2 ^ 2 ∧
     readField RtcpHeader_Feedback .Padding mem = dataWord mem 0 / 2 ^ 29 % 2 ^ 1 ∧
     readField RtcpHeader_Feedback .Fmt mem = dataWord mem 0 / 2 ^ 24 % 2 ^ 5 ∧
     readField RtcpHeader_Feedback .Type_ mem = dataWord mem 0 / 2 ^ 16 % 2 ^ 8 ∧
     readField RtcpHeader_Feedback .Length mem = dataWord mem 0 / 2 ^ 0 % 2 ^ 16 ∧
     readField RtcpHeader_Feedback .Ssrc mem = dataWord mem 1) ∧
    (readField RtcpHeader_General .Version mem = readField RtcpHeader_Feedback .Version mem ∧
     readField RtcpHeader_General .Padding mem = readField RtcpHeader_Feedback .Padding mem ∧
     readField RtcpHeader_General .RC mem = readField RtcpHeader_Feedback .Fmt mem ∧
     readField RtcpHeader_General .Type_ mem = readField RtcpHeader_Feedback .Type_ mem ∧
     readField RtcpHeader_General .Length mem = readField RtcpHeader_Feedback .Length mem ∧
     readField RtcpHeader_General .Ssrc mem = readField RtcpHeader_Feedback .Ssrc mem) := by
  have g :
      bitOffset RtcpHeader_General .Version = 30 ∧ bitWidth RtcpHeader_General .Version = 2 ∧
      bitOffset RtcpHeader_General .Padding = 29 ∧ bitWidth RtcpHeader_General .Padding = 1 ∧
      bitOffset RtcpHeader_General .RC = 24 ∧ bitWidth RtcpHeader_General .RC = 5 ∧
      bitOffset RtcpHeader_General .Type_ = 16 ∧ bitWidth RtcpHeader_General .Type_ = 8 ∧
      bitOffset RtcpHeader_General .Length = 0 ∧ bitWidth RtcpHeader_General .Length = 16 ∧
      bitOffset RtcpHeader_General .Ssrc = 32 ∧ bitWidth RtcpHeader_General .Ssrc = 32 := by
    decide
  have f :
      bitOffset RtcpHeader_Feedback .Version = 30 ∧ bitWidth RtcpHeader_Feedback .Version = 2 ∧
      bitOffset RtcpHeader_Feedback .Padding = 29 ∧ bitWidth RtcpHeader_Feedback .Padding = 1 ∧
      bitOffset RtcpHeader_Feedback .Fmt = 24 ∧ bitWidth RtcpHeader_Feedback .Fmt = 5 ∧
      bitOffset RtcpHeader_Feedback .Type_ = 16 ∧ bitWidth RtcpHeader_Feedback .Type_ = 8 ∧
      bitOffset RtcpHeader_Feedback .Length = 0 ∧ bitWidth RtcpHeader_Feedback .Length = 16 ∧
      bitOffset RtcpHeader_Feedback .Ssrc = 32 ∧ bitWidth RtcpHeader_Feedback .Ssrc = 32 := by
    decide
  obtain ⟨g1, g2, g3, g4, g5, g6, g7, g8, g9, g10, g11, g12⟩ := g
  obtain ⟨f1, f2, f3, f4, f5, f6, f7, f8, f9, f10, f11, f12⟩ := f
  simp only [readField, dataWord, g1, g2, g3, g4, g5, g6, g7, g8, g9, g10, g11, g12,
    f1, f2, f3, f4, f5, f6, f7, f8, f9, f10, f11, f12]
  norm_num
  refine ⟨?_, ?_, ?_, ?_⟩ <;> omega

/-! ## HBCondition.cpp: `Condition::Wait` -/

/-- The timed `switch` sets `tResult` exactly for the result 0. -/
theorem Wait_switchTimed_value (b : Build) (tRes : Int) :
    (Wait_switchTimed b tRes).1 = decide (tRes = 0) := by
  unfold Wait_switchTimed
  cases b <;> simp only [EDEADLK, EBUSY, EINVAL, EFAULT, ETIMEDOUT] <;>
    split_ifs <;> simp_all

/-- The untimed `switch` sets `tResult` exactly for the result 0. -/
theorem Wait_switchUntimed_value (b : Build) (tRes : Int) :
    (Wait_switchUntimed b tRes).1 = decide (tRes = 0) := by
  unfold Wait_switchUntimed
  cases b <;> simp only [EDEADLK, EBUSY, EINVAL, EFAULT, ETIMEDOUT] <;>
    split_ifs <;> simp_all

/-- The return value of `Condition::Wait` on every path. -/
theorem Wait_value (b : Build) (os : OS) (pMutex : Option Nat) (pTime : Int) :
    (Condition.Wait b os pMutex pTime).value = decide (os.wait_rc = 0) := by
  unfold Condition.Wait Wait_posix Wait_windows
  cases pMutex <;> simp only [] <;> split_ifs <;>
    simp [Wait_switchTimed_value, Wait_switchUntimed_value, WAIT_OBJECT_0]

/-- C5. On every build, for every timeout and with or without a mutex, `Condition::Wait`
returns true exactly when the OS wait returns 0; in particular it returns false when the
OS wait returns `ETIMEDOUT` (POSIX) or `WAIT_TIMEOUT` (Windows). -/
theorem Wait_true_iff_os_success (b : Build) (os : OS) (pMutex : Option Nat) (pTime : Int) :
    ((Condition.Wait b os pMutex pTime).value = true ↔ os.wait_rc = 0) ∧
    (Condition.Wait b ⟨os.clock_rc, os.now, ETIMEDOUT b⟩ pMutex pTime).value = false ∧
    (Condition.Wait b ⟨os.clock_rc, os.now, WAIT_TIMEOUT⟩ pMutex pTime).value = false := by
  refine ⟨?_, ?_, ?_⟩
  · rw [Wait_value]; simp
  · rw [Wait_value]; cases b <;> simp [ETIMEDOUT]
  · rw [Wait_value]; simp [WAIT_TIMEOUT]

/-- Every call the timed `switch` issues is a log call. -/
theorem Wait_switchTimed_logs (b : Build) (tRes : Int) :
    ∀ c ∈ (Wait_switchTimed b tRes).2, ∃ l f a, c = Call.LOG l f a := by
  unfold Wait_switchTimed
  split_ifs <;> simp

/-- Every call the untimed `switch` issues is a log call. -/
theorem Wait_switchUntimed_logs (b : Build) (tRes : Int) :
    ∀ c ∈ (Wait_switchUntimed b tRes).2, ∃ l f a, c = Call.LOG l f a := by
  unfold Wait_switchUntimed
  split_ifs <;> simp

/-- Every call made while reading the clock is a clock call or a log call. -/
theorem Wait_readClock_calls (b : Build) (os : OS) :
    ∀ c ∈ Wait_readClock b os,
      c = Call.clock_gettime ∨ c = Call.clock_get_time ∨ ∃ l f a, c = Call.LOG l f a := by
  unfold Wait_readClock
  cases b <;> simp only [] <;> try split_ifs
  all_goals simp

/-- A filter that rejects log calls and clock calls rejects a whole list of them. -/
theorem filter_logs_clock_nil (q : Call → Bool) (l : List Call)
    (hq : ∀ lv f a, q (Call.LOG lv f a) = false)
    (hc1 : q Call.clock_gettime = false) (hc2 : q Call.clock_get_time = false)
    (hl : ∀ c ∈ l, c = Call.clock_gettime ∨ c = Call.clock_get_time ∨
      ∃ lv f a, c = Call.LOG lv f a) :
    l.filter q = [] := by
  rw [List.filter_eq_nil_iff]
  intro c hc
  rcases hl c hc with h | h | ⟨lv, f, a, h⟩ <;> subst h <;> simp [hq, hc1, hc2]

/-- A filter that rejects log and clock calls keeps nothing of the clock reading. -/
theorem filter_readClock (q : Call → Bool) (b : Build) (os : OS)
    (hq : ∀ lv f a, q (Call.LOG lv f a) = false)
    (hc1 : q Call.clock_gettime = false) (hc2 : q Call.clock_get_time = false) :
    (Wait_readClock b os).filter q = [] :=
  filter_logs_clock_nil q _ hq hc1 hc2 (Wait_readClock_calls b os)

/-- A filter that rejects log calls keeps nothing of the timed `switch`. -/
theorem filter_switchTimed (q : Call → Bool) (b : Build) (tRes : Int)
    (hq : ∀ lv f a, q (Call.LOG lv f a) = false) :
    (Wait_switchTimed b tRes).2.filter q = [] := by
  rw [List.filter_eq_nil_iff]
  intro c hc
  obtain ⟨lv, f, a, h⟩ := Wait_switchTimed_logs b tRes c hc
  subst h; simp [hq]

/-- A filter that rejects log calls keeps nothing of the untimed `switch`. -/
theorem filter_switchUntimed (q : Call → Bool) (b : Build) (tRes : Int)
    (hq : ∀ lv f a, q (Call.LOG lv f a) = false) :
    (Wait_switchUntimed b tRes).2.filter q = [] := by
  rw [List.filter_eq_nil_iff]
  intro c hc
  obtain ⟨lv, f, a, h⟩ := Wait_switchUntimed_logs b tRes c hc
  subst h; simp [hq]

/-- The calls of the POSIX branch that a filter keeps, when it rejects log and clock
calls: the mutex calls and the one wait call, in program order. -/
theorem Wait_posix_filter (q : Call → Bool) (b : Build) (os : OS) (pMutex : Option Nat)
    (pTime : Int)
    (hq : ∀ lv f a, q (Call.LOG lv f a) = false)
    (hc1 : q Call.clock_gettime = false) (hc2 : q Call.clock_get_time = false) :
    (Wait_posix b os pMutex pTime).calls.filter q =
      ((if pMutex = none then
          [Call.PTHREAD_MUTEX_INITIALIZER .tMutex, Call.pthread_mutex_lock .tMutex]
        else []) ++
       [if pTime > 0 then
          Call.pthread_cond_timedwait (Wait_mutexArg pMutex) (Wait_deadline os.now pTime)
        else Call.pthread_cond_wait (Wait_mutexArg pMutex)] ++
       (if pMutex = none then [Call.pthread_mutex_destroy .tMutex] else [])).filter q := by
  unfold Wait_posix
  cases pMutex <;> simp only [reduceCtorEq, if_true, if_false] <;> split_ifs <;>
    simp [List.filter_append, List.filter_cons, filter_readClock q b os hq hc1 hc2,
      filter_switchTimed q b _ hq, filter_switchUntimed q b _ hq, Wait_mutexArg]

/-- C6. With timeout 0, `Condition::Wait` issues exactly one untimed OS wait and no timed
one, with or without a mutex; with a timeout `0 < pTime` (an `int`) it issues exactly one
timed OS wait and no untimed one. -/
theorem Wait_mode_by_timeout (b : Build) (os : OS) (pMutex : Option Nat) (pTime : Int)
    (hpos : 0 < pTime) (hint : pTime < 2 ^ 31) :
    (((Condition.Wait b os pMutex 0).calls.filter Call.isUntimedWait).length = 1 ∧
     (Condition.Wait b os pMutex 0).calls.filter Call.isTimedWait = []) ∧
    (((Condition.Wait b os pMutex pTime).calls.filter Call.isTimedWait).length = 1 ∧
     (Condition.Wait b os pMutex pTime).calls.filter Call.isUntimedWait = []) := by
  unfold Condition.Wait
  by_cases hb : b.isPosix = true
  · simp only [hb, if_true]
    rw [Wait_posix_filter _ _ _ _ _ (by intros; rfl) rfl rfl,
      Wait_posix_filter _ _ _ _ _ (by intros; rfl) rfl rfl,
      Wait_posix_filter _ _ _ _ _ (by intros; rfl) rfl rfl,
      Wait_posix_filter _ _ _ _ _ (by intros; rfl) rfl rfl]
    cases pMutex <;> simp [hpos, Call.isTimedWait, Call.isUntimedWait]
  · simp only [hb]
    have h1 : toDWORD pTime ≠ INFINITE := by
      unfold toDWORD INFINITE
      omega
    have h2 : pTime ≠ 0 := by omega
    simp [Wait_windows, Call.isTimedWait, Call.isUntimedWait, h1, h2]

/-- Witness for C6: a Linux build, no mutex, timeout 100 ms. -/
theorem Wait_mode_by_timeout_witness :
    ((0 : Int) < 100 ∧ (100 : Int) < 2 ^ 31) ∧
    (((Condition.Wait .LINUX ⟨0, ⟨5, 0⟩, 0⟩ none 0).calls.filter Call.isUntimedWait).length = 1 ∧
     (Condition.Wait .LINUX ⟨0, ⟨5, 0⟩, 0⟩ none 0).calls.filter Call.isTimedWait = []) ∧
    (((Condition.Wait .LINUX ⟨0, ⟨5, 0⟩, 0⟩ none 100).calls.filter Call.isTimedWait).length = 1 ∧
     (Condition.Wait .LINUX ⟨0, ⟨5, 0⟩, 0⟩ none 100).calls.filter Call.isUntimedWait = []) :=
  ⟨⟨by decide, by decide⟩,
    Wait_mode_by_timeout .LINUX ⟨0, ⟨5, 0⟩, 0⟩ none 100 (by decide) (by decide)⟩

/-- A value in the range of `int` is not changed by the wrap-around. -/
theorem int32_of_inRange (x : Int) (hlo : -2147483648 ≤ x) (hhi : x < 2147483648) :
    int32 x = x := by
  unfold int32
  rw [Int.emod_eq_of_lt (by omega) (by omega)]
  omega

/-- A value in the range of `long` is not changed by the wrap-around. -/
theorem int64_of_inRange (x : Int) (hlo : -9223372036854775808 ≤ x)
    (hhi : x < 9223372036854775808) : int64 x = x := by
  unfold int64
  rw [Int.emod_eq_of_lt (by omega) (by omega)]
  omega

/-- As long as `pTime * 1000 * 1000` does not wrap (`pTime <= 2147`), the deadline of a
valid clock reading denotes the instant `now + pTime` ms, and it is a valid `timespec`
exactly when the nanoseconds did not reach the next second. -/
theorem Wait_deadline_spec (now : timespec) (pTime : Int) (hnow : now.valid)
    (hpos : 0 < pTime) (hsmall : pTime ≤ 2147) :
    (Wait_deadline now pTime).nanos = now.nanos + pTime * 1000000 ∧
    ((Wait_deadline now pTime).valid ↔ now.tv_nsec + pTime * 1000000 < 1000000000) := by
  obtain ⟨h0, h1⟩ := hnow
  have e : (Wait_deadline now pTime).tv_nsec = now.tv_nsec + pTime * 1000000 := by
    simp only [Wait_deadline, Wait_nsecIncrement]
    rw [int32_of_inRange (pTime * 1000) (by omega) (by omega),
      int32_of_inRange (pTime * 1000 * 1000) (by omega) (by omega),
      int64_of_inRange _ (by omega) (by omega)]
    omega
  have es : (Wait_deadline now pTime).tv_sec = now.tv_sec := rfl
  constructor
  · simp only [timespec.nanos, e, es]; ring
  · simp only [timespec.valid, e]
    constructor
    · intro h; exact h.2
    · intro h; exact ⟨by omega, h⟩

/-- C7 (the code at the failing input). With the clock at 0 s 950000000 ns, a valid
reading, `Wait(pMutex, 100)` and `Wait(NULL, 100)` hand `pthread_cond_timedwait` the
deadline 0 s 1050000000 ns: the 100 ms were added to `tv_nsec` without a carry into
`tv_sec`, and the result is not a valid `timespec`. -/
theorem Wait_deadline_not_normalised :
    (Condition.Wait .LINUX ⟨0, ⟨0, 950000000⟩, EINVAL .LINUX⟩ (some 0) 100).calls
      = [.clock_gettime, .pthread_cond_timedwait (.pMutex 0) ⟨0, 1050000000⟩] ∧
    (Condition.Wait .LINUX ⟨0, ⟨0, 950000000⟩, EINVAL .LINUX⟩ none 100).calls
      = [.clock_gettime, .PTHREAD_MUTEX_INITIALIZER .tMutex, .pthread_mutex_lock .tMutex,
         .pthread_cond_timedwait .tMutex ⟨0, 1050000000⟩,
         .LOG .LOG_ERROR "Condition was found in uninitialized state" [],
         .pthread_mutex_destroy .tMutex] ∧
    timespec.valid ⟨0, 950000000⟩ ∧
    ¬ timespec.valid ⟨0, 1050000000⟩ ∧
    Wait_deadline ⟨0, 950000000⟩ 100 = ⟨0, 1050000000⟩ := by
  decide

/-- C8 (the code at the failing input). On Linux, with the clock read successfully,
`Wait(pMutex, 100)` with a supplied mutex returns false when the OS wait returns
`ETIMEDOUT` and issues no log call at all, while `Wait(NULL, 100)` logs a warning for the
same result; likewise `Wait(pMutex, 0)` is silent on `EINVAL`, for which `Wait(NULL, 0)`
logs an error. -/
theorem Wait_supplied_mutex_error_not_logged :
    ETIMEDOUT .LINUX ≠ 0 ∧
    Condition.Wait .LINUX ⟨0, ⟨5, 0⟩, ETIMEDOUT .LINUX⟩ (some 0) 100
      = ⟨false, [.clock_gettime, .pthread_cond_timedwait (.pMutex 0) ⟨5, 100000000⟩]⟩ ∧
    (Condition.Wait .LINUX ⟨0, ⟨5, 0⟩, ETIMEDOUT .LINUX⟩ (some 0) 100).calls.filter Call.isLog
      = [] ∧
    Condition.Wait .LINUX ⟨0, ⟨5, 0⟩, ETIMEDOUT .LINUX⟩ none 100
      = ⟨false, [.clock_gettime, .PTHREAD_MUTEX_INITIALIZER .tMutex, .pthread_mutex_lock .tMutex,
          .pthread_cond_timedwait .tMutex ⟨5, 100000000⟩,
          .LOG .LOG_WARN "Condition couldn't be obtained in given time.\n" [],
          .pthread_mutex_destroy .tMutex]⟩ ∧
    EINVAL .LINUX ≠ 0 ∧
    Condition.Wait .LINUX ⟨0, ⟨5, 0⟩, EINVAL .LINUX⟩ (some 0) 0
      = ⟨false, [.clock_gettime, .pthread_cond_wait (.pMutex 0)]⟩ ∧
    Condition.Wait .LINUX ⟨0, ⟨5, 0⟩, EINVAL .LINUX⟩ none 0
      = ⟨false, [.clock_gettime, .PTHREAD_MUTEX_INITIALIZER .tMutex, .pthread_mutex_lock .tMutex,
          .pthread_cond_wait .tMutex,
          .LOG .LOG_ERROR "Condition was found in uninitialized state" [],
          .pthread_mutex_destroy .tMutex]⟩ := by
  decide

/-- The timed `switch` logs one message, except for the results 0 and `EBUSY`. -/
theorem Wait_switchTimed_length (b : Build) (tRes : Int) :
    (Wait_switchTimed b tRes).2.length = if tRes = 0 ∨ tRes = EBUSY b then 0 else 1 := by
  unfold Wait_switchTimed
  cases b <;> simp only [EDEADLK, EBUSY, EINVAL, EFAULT, ETIMEDOUT] <;>
    split_ifs <;> simp_all

/-- The untimed `switch` logs one message, except for the results 0 and `EBUSY`. -/
theorem Wait_switchUntimed_length (b : Build) (tRes : Int) :
    (Wait_switchUntimed b tRes).2.length = if tRes = 0 ∨ tRes = EBUSY b then 0 else 1 := by
  unfold Wait_switchUntimed
  cases b <;> simp only [EDEADLK, EBUSY, EINVAL, EFAULT, ETIMEDOUT] <;>
    split_ifs <;> simp_all

/-- The log filter keeps all of the timed `switch`. -/
theorem filter_isLog_switchTimed (b : Build) (tRes : Int) :
    (Wait_switchTimed b tRes).2.filter Call.isLog = (Wait_switchTimed b tRes).2 := by
  rw [List.filter_eq_self]
  intro c hc
  obtain ⟨lv, f, a, h⟩ := Wait_switchTimed_logs b tRes c hc
  subst h; rfl

/-- The log filter keeps all of the untimed `switch`. -/
theorem filter_isLog_switchUntimed (b : Build) (tRes : Int) :
    (Wait_switchUntimed b tRes).2.filter Call.isLog = (Wait_switchUntimed b tRes).2 := by
  rw [List.filter_eq_self]
  intro c hc
  obtain ⟨lv, f, a, h⟩ := Wait_switchUntimed_logs b tRes c hc
  subst h; rfl

/-- The log calls after the wait call in the POSIX branch: those of the `switch` when no
mutex is supplied, none when one is. -/
theorem logsAfterWait_posix (b : Build) (os : OS) (pMutex : Option Nat) (pTime : Int) :
    logsAfterWait (Wait_posix b os pMutex pTime).calls =
      match pMutex with
      | some _ => []
      | none => if pTime > 0 then (Wait_switchTimed b os.wait_rc).2
                else (Wait_switchUntimed b os.wait_rc).2 := by
  unfold logsAfterWait Wait_posix Wait_readClock
  cases pMutex <;> cases b <;> simp only [] <;> split_ifs <;>
    simp [List.dropWhile, List.filter_append, List.filter_cons, Call.isTimedWait,
      Call.isUntimedWait, Call.isLog, filter_isLog_switchTimed, filter_isLog_switchUntimed]

/-- For every non-zero result of the OS wait, on every build, with or without a mutex,
timed or untimed, `Condition::Wait` returns false and issues no `exit`. Of the log calls
issued after the wait has returned there is, without a mutex, exactly one when the build
is for POSIX and the result is not `EBUSY`, and none otherwise. -/
theorem Wait_os_error (b : Build) (os : OS) (pMutex : Option Nat) (pTime : Int)
    (herr : os.wait_rc ≠ 0) :
    (Condition.Wait b os pMutex pTime).value = false ∧
    (Condition.Wait b os pMutex pTime).calls.filter Call.isExit = [] ∧
    (logsAfterWait (Condition.Wait b os none pTime).calls).length =
      if b.isPosix = true ∧ os.wait_rc ≠ EBUSY b then 1 else 0 := by
  refine ⟨?_, ?_, ?_⟩
  · rw [Wait_value]; simpa using herr
  · unfold Condition.Wait
    by_cases hb : b.isPosix = true
    · simp only [hb, if_true]
      rw [Wait_posix_filter _ _ _ _ _ (by intros; rfl) rfl rfl]
      cases pMutex <;> simp [List.filter_cons, Call.isExit] <;> split_ifs <;> simp
    · simp [hb, Wait_windows, Call.isExit]
  · unfold Condition.Wait
    by_cases hb : b.isPosix = true
    · simp only [hb, if_true, true_and]
      rw [logsAfterWait_posix]
      simp only []
      split_ifs <;> simp_all [Wait_switchTimed_length, Wait_switchUntimed_length]
    · simp [hb, Wait_windows, logsAfterWait, Call.isTimedWait, Call.isUntimedWait, Call.isLog]
      split_ifs <;> simp [List.dropWhile, Call.isLog]

/-- C9 (counterexample). On a Windows build `Wait(NULL, 100)` and `Wait(NULL, 0)` issue
the one call `WaitForSingleObject` and no mutex call: no private mutex is created, locked,
passed to the wait or destroyed. -/
theorem Wait_windows_without_mutex_calls :
    Build.WIN32.isPosix = false ∧
    (Condition.Wait .WIN32 ⟨0, ⟨0, 0⟩, 0⟩ none 100).calls = [Call.WaitForSingleObject 100] ∧
    ((Condition.Wait .WIN32 ⟨0, ⟨0, 0⟩, 0⟩ none 100).calls.filter fun c => c.mutex?.isSome)
      = [] ∧
    (Condition.Wait .WIN32 ⟨0, ⟨0, 0⟩, 0⟩ none 0).calls = [Call.WaitForSingleObject INFINITE] := by
  decide

/-- C9 (amended). On a POSIX build, `Condition::Wait` without a mutex makes, on every
path, exactly these mutex-related calls, in this order: it creates the private `tMutex`, locks it, passes
it to the (timed or untimed) wait, and destroys it once, the destruction being the last
call before the return. With a supplied mutex the only mutex-related call is the wait on
that mutex: no private mutex is created. -/
theorem Wait_private_mutex (b : Build) (os : OS) (pTime : Int) (addr : Nat)
    (hb : b.isPosix = true) :
    ((Condition.Wait b os none pTime).calls.filter fun c => c.mutex?.isSome) =
      [ Call.PTHREAD_MUTEX_INITIALIZER .tMutex,
        Call.pthread_mutex_lock .tMutex,
        if pTime > 0 then Call.pthread_cond_timedwait .tMutex (Wait_deadline os.now pTime)
        else Call.pthread_cond_wait .tMutex,
        Call.pthread_mutex_destroy .tMutex ] ∧
    (Condition.Wait b os none pTime).calls.getLast? = some (Call.pthread_mutex_destroy .tMutex) ∧
    ((Condition.Wait b os (some addr) pTime).calls.filter fun c => c.mutex?.isSome) =
      [ if pTime > 0 then
          Call.pthread_cond_timedwait (.pMutex addr) (Wait_deadline os.now pTime)
        else Call.pthread_cond_wait (.pMutex addr) ] := by
  unfold Condition.Wait
  simp only [hb, if_true]
  refine ⟨?_, ?_, ?_⟩
  · rw [Wait_posix_filter _ _ _ _ _ (by intros; rfl) rfl rfl]
    simp only [reduceCtorEq, ↓reduceIte]
    split_ifs <;> simp [List.filter_cons, Call.mutex?, Wait_mutexArg]
  · unfold Wait_posix
    simp only []
    split_ifs <;> exact List.getLast?_concat _
  · rw [Wait_posix_filter _ _ _ _ _ (by intros; rfl) rfl rfl]
    simp only [reduceCtorEq, ↓reduceIte]
    split_ifs <;> simp [List.filter_cons, Call.mutex?, Wait_mutexArg]

/-- Witness for C9 (amended): a Linux build, timeout 100 ms, the caller's mutex at
address 7. -/
theorem Wait_private_mutex_witness :
    Build.LINUX.isPosix = true ∧
    (((Condition.Wait .LINUX ⟨0, ⟨5, 0⟩, 0⟩ none 100).calls.filter fun c => c.mutex?.isSome) =
      [ Call.PTHREAD_MUTEX_INITIALIZER .tMutex,
        Call.pthread_mutex_lock .tMutex,
        if (100 : Int) > 0 then
          Call.pthread_cond_timedwait .tMutex (Wait_deadline (⟨0, ⟨5, 0⟩, 0⟩ : OS).now 100)
        else Call.pthread_cond_wait .tMutex,
        Call.pthread_mutex_destroy .tMutex ] ∧
    (Condition.Wait .LINUX ⟨0, ⟨5, 0⟩, 0⟩ none 100).calls.getLast?
      = some (Call.pthread_mutex_destroy .tMutex) ∧
    ((Condition.Wait .LINUX ⟨0, ⟨5, 0⟩, 0⟩ (some 7) 100).calls.filter fun c => c.mutex?.isSome) =
      [ if (100 : Int) > 0 then
          Call.pthread_cond_timedwait (.pMutex 7) (Wait_deadline (⟨0, ⟨5, 0⟩, 0⟩ : OS).now 100)
        else Call.pthread_cond_wait (.pMutex 7) ]) :=
  ⟨rfl, Wait_private_mutex .LINUX ⟨0, ⟨5, 0⟩, 0⟩ 100 7 rfl⟩

/-! ## HBCondition.cpp: `Condition::Reset` -/

/-- C10 (counterexample). On a Windows build `Reset` issues `ResetEvent`, whereas the
constructor issues `CreateEvent(NULL, true, false, NULL)`: `Reset` does not perform the
initialisation of a fresh construction. -/
theorem Reset_windows_is_not_construction :
    (Condition.Reset .WIN32 1 (.ready true)).1.calls = [Call.ResetEvent] ∧
    (Condition.Condition .WIN32 1 .invalid).1.calls = [Call.CreateEvent true false] ∧
    (Condition.Reset .WIN32 1 (.ready true)).1.calls
      ≠ (Condition.Condition .WIN32 1 .invalid).1.calls ∧
    (Condition.Reset .WIN64 1 (.ready false)).1.calls = [Call.ResetEvent] ∧
    (Condition.Condition .WIN64 1 .invalid).1.calls = [Call.CreateEvent true false] := by
  decide

/-- C10 (amended). For every prior state of `mCondition` (signalled or not) `Reset`
issues exactly one OS call, changes the condition object only by the effect of that call,
and returns true exactly when the call succeeds; when it succeeds the object is in the
unsignalled state that a successful construction produces. On a POSIX build the call is
`pthread_cond_init(&mCondition, NULL)`, the call the constructor issues, with the same
effect on the object; on a Windows build it is `ResetEvent(mCondition)`, where the
constructor issues `CreateEvent(NULL, true, false, NULL)`. The constructor issues its one
OS call, logs an error exactly when that call fails, and leaves the object as that call
does. -/
theorem Reset_single_os_call (b : Build) (rc rcCtor : Int) (prior garbage : CondObj) :
    (Condition.Reset b rc prior).1.calls
      = [if b.isPosix then Call.pthread_cond_init else Call.ResetEvent] ∧
    ((Condition.Reset b rc prior).1.value = true ↔ Reset_osSuccess b rc) ∧
    (Condition.Reset b rc prior).2
      = (if b.isPosix then os_pthread_cond_init rc prior else os_ResetEvent rc prior) ∧
    (Condition.Condition b rcCtor garbage).1.calls
      = [if b.isPosix then Call.pthread_cond_init else Call.CreateEvent true false]
        ++ (if Condition_osSuccess b rcCtor then []
            else [Call.LOG .LOG_ERROR "Initiation of condition failed" []]) ∧
    ((Condition.Condition b rcCtor garbage).1.value = true ↔ Condition_osSuccess b rcCtor) ∧
    (Condition.Condition b rcCtor garbage).2
      = (if b.isPosix then os_pthread_cond_init rcCtor garbage
         else os_CreateEvent false rcCtor) ∧
    (Reset_osSuccess b rc → Condition_osSuccess b rcCtor →
      (Condition.Reset b rc prior).2 = CondObj.ready false ∧
      (Condition.Reset b rc prior).2 = (Condition.Condition b rcCtor garbage).2) := by
  unfold Condition.Reset Condition.Condition Reset_osSuccess Condition_osSuccess
  by_cases hb : b.isPosix = true
  · simp only [hb, if_true]
    by_cases h1 : rc = 0 <;> by_cases h2 : rcCtor = 0 <;>
      simp [h1, h2, os_pthread_cond_init]
  · simp only [hb]
    by_cases h1 : rc = 0 <;> by_cases h2 : rcCtor = 0 <;>
      simp [h1, h2, os_ResetEvent, os_CreateEvent]

/-! ## HBCondition.cpp: `Condition::SignalOne` and `Condition::SignalAll` -/

/-- Both signalling methods return true exactly when their OS call succeeds; on a POSIX
build they issue `pthread_cond_signal` and `pthread_cond_broadcast`, on a Windows build
both issue `SetEvent`. -/
theorem Signal_value (b : Build) (rc : Int) :
    ((Condition.SignalOne b rc).value = true ↔ if b.isPosix then rc = 0 else rc ≠ 0) ∧
    ((Condition.SignalAll b rc).value = true ↔ if b.isPosix then rc = 0 else rc ≠ 0) ∧
    (b.isPosix = true →
      (Condition.SignalOne b rc).calls = [Call.pthread_cond_signal] ∧
      (Condition.SignalAll b rc).calls = [Call.pthread_cond_broadcast]) ∧
    (b.isPosix = false →
      (Condition.SignalOne b rc).calls = [Call.SetEvent] ∧
      (Condition.SignalAll b rc).calls = [Call.SetEvent]) := by
  unfold Condition.SignalOne Condition.SignalAll
  cases b <;> simp [Build.isPosix]

/-- C11 (the code at the failing input). On a Windows build the constructor creates a
manual-reset event, and `SignalOne` issues the same single call as `SignalAll`,
`SetEvent`, which on a manual-reset event releases both of two waiters; on Linux
`SignalOne` releases one of two waiters and `SignalAll` both. -/
theorem SignalOne_windows_is_broadcast :
    (Condition.Condition .WIN32 1 .invalid).1.calls = [Call.CreateEvent true false] ∧
    (Condition.SignalOne .WIN32 1).calls = [Call.SetEvent] ∧
    (Condition.SignalAll .WIN32 1).calls = [Call.SetEvent] ∧
    (Condition.SignalOne .WIN32 1).calls.map (os_released true 2) = [2] ∧
    (Condition.SignalOne .WIN64 1).calls = (Condition.SignalAll .WIN64 1).calls ∧
    (Condition.SignalOne .LINUX 0).calls.map (os_released true 2) = [1] ∧
    (Condition.SignalAll .LINUX 0).calls.map (os_released true 2) = [2] := by
  decide

/-! ## HBCondition.cpp: `Condition::Wait`, timeouts and the private mutex -/

/-- Up to 2147 ms the expression `pTime * 1000 * 1000` does not wrap. -/
theorem Wait_nsecIncrement_small (pTime : Int) (hpos : 0 < pTime) (hsmall : pTime ≤ 2147) :
    Wait_nsecIncrement pTime = pTime * 1000000 := by
  unfold Wait_nsecIncrement
  rw [int32_of_inRange (pTime * 1000) (by omega) (by omega),
    int32_of_inRange (pTime * 1000 * 1000) (by omega) (by omega)]
  omega

/-- C15 (the code at the failing input). For the timeout 2148 ms, which lies in
`0 < pTime <= 2^31 - 1`, the expression `pTime * 1000 * 1000` evaluated in `int` is
-2146967296 and not 2148000000, and `Wait(pMutex, 2148)` hands this negative `tv_nsec`
to `pthread_cond_timedwait`. -/
theorem Wait_nsecIncrement_wraps :
    ((0 : Int) < 2148 ∧ (2148 : Int) ≤ 2 ^ 31 - 1) ∧
    Wait_nsecIncrement 2148 = -2146967296 ∧
    Wait_nsecIncrement 2148 ≠ 2148 * 1000000 ∧
    (Condition.Wait .LINUX ⟨0, ⟨0, 0⟩, EINVAL .LINUX⟩ (some 0) 2148).calls
      = [.clock_gettime, .pthread_cond_timedwait (.pMutex 0) ⟨0, -2146967296⟩] := by
  decide

/-- C16 (the code at the failing input). For the timeout -5 the POSIX variant waits
without a time bound (`pthread_cond_wait`), the Windows variant waits with the bound
4294967291 ms, the value of `-5` converted to `DWORD`. -/
theorem Wait_mode_differs_for_negative :
    (((Condition.Wait .LINUX ⟨0, ⟨0, 0⟩, 0⟩ (some 0) (-5)).calls.filter Call.isUntimedWait)
        = [Call.pthread_cond_wait (.pMutex 0)] ∧
     (Condition.Wait .LINUX ⟨0, ⟨0, 0⟩, 0⟩ (some 0) (-5)).calls.filter Call.isTimedWait = []) ∧
    ((Condition.Wait .WIN32 ⟨0, ⟨0, 0⟩, 0⟩ (some 0) (-5)).calls.filter Call.isUntimedWait = [] ∧
     (Condition.Wait .WIN32 ⟨0, ⟨0, 0⟩, 0⟩ (some 0) (-5)).calls.filter Call.isTimedWait
        = [Call.WaitForSingleObject 4294967291]) := by
  decide

/-- For every timeout `0 <= pTime` of type `int` the POSIX and the Windows variant issue
the same number of untimed and of timed waits. -/
theorem Wait_mode_agrees_nonneg (bp bw : Build) (os : OS) (pMutex : Option Nat) (pTime : Int)
    (hbp : bp.isPosix = true) (hbw : bw.isPosix = false)
    (h0 : 0 ≤ pTime) (h1 : pTime < 2 ^ 31) :
    ((Condition.Wait bp os pMutex pTime).calls.filter Call.isUntimedWait).length
      = ((Condition.Wait bw os pMutex pTime).calls.filter Call.isUntimedWait).length ∧
    ((Condition.Wait bp os pMutex pTime).calls.filter Call.isTimedWait).length
      = ((Condition.Wait bw os pMutex pTime).calls.filter Call.isTimedWait).length := by
  unfold Condition.Wait
  simp only [hbp, hbw, if_true]
  rw [Wait_posix_filter _ _ _ _ _ (by intros; rfl) rfl rfl,
    Wait_posix_filter _ _ _ _ _ (by intros; rfl) rfl rfl]
  by_cases hz : pTime = 0
  · subst hz
    cases pMutex <;> simp [Wait_windows, Call.isTimedWait, Call.isUntimedWait]
  · have hpos : 0 < pTime := by omega
    have hd : toDWORD pTime ≠ INFINITE := by
      unfold toDWORD INFINITE
      omega
    cases pMutex <;> simp [Wait_windows, Call.isTimedWait, Call.isUntimedWait, hpos, hz, hd]

/-- Clock and log calls neither change the state of a mutex nor destroy it. -/
theorem statesAtDestroy_logs (m : MutexRef) (s : MutexState) (l rest : List Call)
    (hl : ∀ c ∈ l, c = Call.clock_gettime ∨ c = Call.clock_get_time ∨
      ∃ lv f a, c = Call.LOG lv f a) :
    statesAtDestroy m s (l ++ rest) = statesAtDestroy m s rest := by
  induction l with
  | nil => rfl
  | cons c cs ih =>
    have hc := hl c (List.mem_cons_self _ _)
    have hcs : ∀ c ∈ cs, c = Call.clock_gettime ∨ c = Call.clock_get_time ∨
        ∃ lv f a, c = Call.LOG lv f a := fun c' h' => hl c' (List.mem_cons_of_mem _ h')
    rcases hc with h | h | ⟨lv, f, a, h⟩ <;> subst h <;>
      simp [statesAtDestroy, os_mutexStep, ih hcs]

/-- On every POSIX build, for every timeout and OS result, the private mutex is in the
locked state when `Condition::Wait` destroys it. -/
theorem Wait_destroy_state (b : Build) (os : OS) (pTime : Int) (hb : b.isPosix = true) :
    statesAtDestroy .tMutex .uninitialised (Condition.Wait b os none pTime).calls
      = [MutexState.locked] := by
  unfold Condition.Wait Wait_posix
  simp only [hb, if_true]
  split_ifs
  · simp only [List.append_assoc]
    rw [statesAtDestroy_logs _ _ _ _ (Wait_readClock_calls b os)]
    simp only [List.cons_append, List.nil_append, statesAtDestroy, os_mutexStep, if_true,
      reduceCtorEq, if_false, List.nil_append]
    show statesAtDestroy MutexRef.tMutex MutexState.locked (_ ++ [_]) = _
    rw [statesAtDestroy_logs _ _ _ _ (fun c hc => Or.inr (Or.inr (Wait_switchTimed_logs b _ c hc)))]
    simp [statesAtDestroy]
  · simp only [List.append_assoc]
    rw [statesAtDestroy_logs _ _ _ _ (Wait_readClock_calls b os)]
    simp only [List.cons_append, List.nil_append, statesAtDestroy, os_mutexStep, if_true,
      reduceCtorEq, if_false, List.nil_append]
    show statesAtDestroy MutexRef.tMutex MutexState.locked (_ ++ [_]) = _
    rw [statesAtDestroy_logs _ _ _ _ (fun c hc => Or.inr (Or.inr (Wait_switchUntimed_logs b _ c hc)))]
    simp [statesAtDestroy]

/-- C17 (the code at the failing input). `Wait(NULL, 0)` and `Wait(NULL, 100)` on Linux
call `pthread_mutex_destroy` on the private mutex while it is locked: the calls are
lock, wait, destroy, without an unlock. -/
theorem Wait_destroys_locked_mutex :
    statesAtDestroy .tMutex .uninitialised
      (Condition.Wait .LINUX ⟨0, ⟨0, 0⟩, 0⟩ none 0).calls = [MutexState.locked] ∧
    statesAtDestroy .tMutex .uninitialised
      (Condition.Wait .LINUX ⟨0, ⟨0, 0⟩, 0⟩ none 100).calls = [MutexState.locked] ∧
    statesAtDestroy .tMutex .uninitialised
      (Condition.Wait .LINUX ⟨0, ⟨0, 0⟩, ETIMEDOUT .LINUX⟩ none 100).calls
        = [MutexState.locked] ∧
    (Condition.Wait .LINUX ⟨0, ⟨0, 0⟩, 0⟩ none 0).calls
      = [.clock_gettime, .PTHREAD_MUTEX_INITIALIZER .tMutex, .pthread_mutex_lock .tMutex,
         .pthread_cond_wait .tMutex, .pthread_mutex_destroy .tMutex] := by
  decide

/-! ## main.cpp: the signal handlers -/

/-- C18. `HandleExceptionSignal` issues `exit` if and only if the signal is `SIGILL`,
`SIGFPE`, `SIGSEGV`, `SIGTERM` or `SIGABRT`. For these it first fetches the stack trace
and logs every line of it, and its last call, the only `exit`, is `exit(0)`. For every
other signal it issues no call at all: it logs nothing and has no other effect. -/
theorem HandleExceptionSignal_exits_iff (pSignal : Int) (tStackTrace : List String) :
    ((∃ c ∈ HandleExceptionSignal pSignal tStackTrace, c.isExit = true) ↔
      (pSignal = SIGILL ∨ pSignal = SIGFPE ∨ pSignal = SIGSEGV ∨ pSignal = SIGTERM
        ∨ pSignal = SIGABRT)) ∧
    ((pSignal = SIGILL ∨ pSignal = SIGFPE ∨ pSignal = SIGSEGV ∨ pSignal = SIGTERM
        ∨ pSignal = SIGABRT) →
      (HandleExceptionSignal pSignal tStackTrace).head? = some Call.GetStackTrace ∧
      (∀ tIt ∈ tStackTrace,
        Call.LOGEX .LOG_ERROR "   %s" [tIt] ∈ HandleExceptionSignal pSignal tStackTrace) ∧
      (HandleExceptionSignal pSignal tStackTrace).getLast? = some (Call.exit 0) ∧
      (HandleExceptionSignal pSignal tStackTrace).filter Call.isExit = [Call.exit 0]) ∧
    (¬ (pSignal = SIGILL ∨ pSignal = SIGFPE ∨ pSignal = SIGSEGV ∨ pSignal = SIGTERM
        ∨ pSignal = SIGABRT) →
      HandleExceptionSignal pSignal tStackTrace = []) := by
  by_cases h : pSignal = SIGILL ∨ pSignal = SIGFPE ∨ pSignal = SIGSEGV ∨ pSignal = SIGTERM
        ∨ pSignal = SIGABRT
  · have e : HandleExceptionSignal pSignal tStackTrace = _ := if_pos h
    refine ⟨⟨fun _ => h, fun _ => ⟨Call.exit 0, ?_, rfl⟩⟩, fun _ => ⟨?_, ?_, ?_, ?_⟩,
      fun h' => absurd h h'⟩
    · rw [e]; simp
    · rw [e]; rfl
    · intro tIt ht
      rw [e]
      simp only [List.mem_append, List.mem_map]
      exact Or.inl (Or.inl (Or.inr ⟨tIt, ht, rfl⟩))
    · rw [e]
      exact List.getLast?_concat _
    · rw [e]
      simp [List.filter_append, List.filter_map, Call.isExit, List.filter_cons]
  · have e : HandleExceptionSignal pSignal tStackTrace = [] := if_neg h
    refine ⟨⟨fun ⟨c, hc, _⟩ => ?_, fun h' => absurd h' h⟩, fun h' => absurd h' h, fun _ => e⟩
    rw [e] at hc
    simp at hc

/-- C19. With the POSIX numbers 4, 6, 8, 11 and 15, `GetSignalDescription` assigns the
names `SIGILL`, `SIGABRT`, `SIGFPE`, `SIGSEGV` and `SIGTERM` to the five signals on which
`HandleExceptionSignal` exits, none of them `unsupported signal`; and for every `int` the
name and the description it assigns are non-empty. -/
theorem GetSignalDescription_names (pSignal : Int) :
    (GetSignalDescription 4).1 = "SIGILL" ∧
    (GetSignalDescription 6).1 = "SIGABRT" ∧
    (GetSignalDescription 8).1 = "SIGFPE" ∧
    (GetSignalDescription 11).1 = "SIGSEGV" ∧
    (GetSignalDescription 15).1 = "SIGTERM" ∧
    (SIGILL = 4 ∧ SIGABRT = 6 ∧ SIGFPE = 8 ∧ SIGSEGV = 11 ∧ SIGTERM = 15) ∧
    ((GetSignalDescription SIGILL).1 ≠ "unsupported signal" ∧
     (GetSignalDescription SIGABRT).1 ≠ "unsupported signal" ∧
     (GetSignalDescription SIGFPE).1 ≠ "unsupported signal" ∧
     (GetSignalDescription SIGSEGV).1 ≠ "unsupported signal" ∧
     (GetSignalDescription SIGTERM).1 ≠ "unsupported signal") ∧
    (GetSignalDescription pSignal).1 ≠ "" ∧
    (GetSignalDescription pSignal).2 ≠ "" := by
  refine ⟨by decide, by decide, by decide, by decide, by decide, by decide, by decide, ?_, ?_⟩
  · unfold GetSignalDescription
    split <;> decide
  · unfold GetSignalDescription
    split <;> decide

/-! ## Class `RTP`: sequence numbers, loss accounting, H.261 fragmentation -/

/-- C12. A packet whose header sequence number is `delta` ahead of the previous one,
`1 <= delta < 2^15` modulo 2^16, is accepted and advances the extended sequence number
by exactly `delta`, so it does not decrease; this holds across a 16-bit wrap, where the
overflow shift grows by 2^16 and the extended number stays the shift plus the header
number. The header numbers 65534, 65535, 0, 1 give 65534, 65535, 65536, 65537. -/
theorem RtpParse_extends_in_order (st : RtpState) (hdrSeq : Nat)
    (hhdr : hdrSeq < 65536) (hlast : st.mLastSequenceNumberFromRTPHeader < 65536)
    (h1 : 1 ≤ RtpParse_delta hdrSeq st.mLastSequenceNumberFromRTPHeader)
    (h2 : RtpParse_delta hdrSeq st.mLastSequenceNumberFromRTPHeader < 32768) :
    (∃ st', RtpParse_sequence (some st) hdrSeq = (some st', true) ∧
      st'.mRemoteSequenceNumber
        = st.mRemoteSequenceNumber
            + RtpParse_delta hdrSeq st.mLastSequenceNumberFromRTPHeader ∧
      st.mRemoteSequenceNumber ≤ st'.mRemoteSequenceNumber ∧
      st'.mLastSequenceNumberFromRTPHeader = hdrSeq ∧
      (st.mRemoteSequenceNumber
          = st.mRemoteSequenceNumberOverflowShift + st.mLastSequenceNumberFromRTPHeader →
        st'.mRemoteSequenceNumber = st'.mRemoteSequenceNumberOverflowShift + hdrSeq)) ∧
    (RtpParse_run none [65534, 65535, 0, 1]).map (·.mRemoteSequenceNumber)
      = [65534, 65535, 65536, 65537] := by
  refine ⟨?_, by decide⟩
  have hne : RtpParse_delta hdrSeq st.mLastSequenceNumberFromRTPHeader ≠ 0 := by omega
  simp only [RtpParse_sequence, hne, h2, if_true, if_false]
  refine ⟨_, rfl, rfl, Nat.le_add_right _ _, rfl, ?_⟩
  intro hinv
  simp only []
  rw [hinv]
  unfold RtpParse_delta at h1 h2 ⊢
  by_cases hw : hdrSeq < st.mLastSequenceNumberFromRTPHeader
  · simp only [hw, decide_True, if_true]
    omega
  · simp only [hw, decide_False]
    simp only [Bool.false_eq_true, if_false]
    omega

/-- Witness for C12: after the packets 65534 and 65535, the packet 0 (a wrap). -/
theorem RtpParse_extends_in_order_witness :
    ((0 : Nat) < 65536 ∧
     (⟨65535, 65535, 0, 0, 65534, 2, 0⟩ : RtpState).mLastSequenceNumberFromRTPHeader < 65536 ∧
     1 ≤ RtpParse_delta 0
        (⟨65535, 65535, 0, 0, 65534, 2, 0⟩ : RtpState).mLastSequenceNumberFromRTPHeader ∧
     RtpParse_delta 0
        (⟨65535, 65535, 0, 0, 65534, 2, 0⟩ : RtpState).mLastSequenceNumberFromRTPHeader
        < 32768) ∧
    RtpParse_sequence (some ⟨65535, 65535, 0, 0, 65534, 2, 0⟩) 0
      = (some ⟨65536, 0, 65536, 1, 65534, 3, 0⟩, true) ∧
    (RtpParse_run none [65534, 65535, 0, 1]).map (·.mRemoteSequenceNumber)
      = [65534, 65535, 65536, 65537] :=
  ⟨⟨by decide, by decide, by decide, by decide⟩, by decide,
    (RtpParse_extends_in_order ⟨65535, 65535, 0, 0, 65534, 2, 0⟩ 0
      (by decide) (by decide) (by decide) (by decide)).2⟩

/-- The fragmentation loop on an empty frame emits nothing. -/
theorem RtpCreateH261_loop_nil (fuel pMax pSeq pTs : Nat) :
    RtpCreateH261_loop fuel pMax pSeq pTs [] = ([], pSeq) := by
  cases fuel <;> simp [RtpCreateH261_loop]

/-- One iteration of the fragmentation loop on a non-empty frame. -/
theorem RtpCreateH261_loop_cons (fuel pMax pSeq pTs : Nat) (pData : List Nat)
    (hne : pData ≠ []) :
    RtpCreateH261_loop (fuel + 1) pMax pSeq pTs pData =
      (⟨decide (pData.drop pMax = []), pSeq, pTs, pData.take pMax⟩ ::
          (RtpCreateH261_loop fuel pMax ((pSeq + 1) % 65536) pTs (pData.drop pMax)).1,
        (RtpCreateH261_loop fuel pMax ((pSeq + 1) % 65536) pTs (pData.drop pMax)).2) := by
  simp [RtpCreateH261_loop, hne]

/-- Cutting off one fragment lowers the rounded-up quotient by one. -/
theorem ceilDiv_step (n m : Nat) (hm : 0 < m) (hn : 0 < n) :
    (n - m + m - 1) / m + 1 = (n + m - 1) / m := by
  by_cases h : n ≤ m
  · have e1 : n - m + m - 1 = m - 1 := by omega
    rw [e1, Nat.div_eq_of_lt (by omega)]
    have e2 : n + m - 1 = (n - 1) + m := by omega
    rw [e2, Nat.add_div_right _ hm, Nat.div_eq_of_lt (by omega)]
  · have e1 : n - m + m - 1 = n - 1 := by omega
    have e2 : n + m - 1 = (n - 1) + m := by omega
    rw [e1, e2, Nat.add_div_right _ hm]

/-- The fragmentation loop with enough fuel: number of packets, payload sizes and
timestamps, sequence numbers, markers, payload contents and final sequence number. -/
theorem RtpCreateH261_loop_spec (fuel pMax pTs : Nat) (hm : 0 < pMax) :
    ∀ (pData : List Nat) (pSeq : Nat), pData.length ≤ fuel → pSeq < 65536 →
      (RtpCreateH261_loop fuel pMax pSeq pTs pData).1.length
        = (pData.length + pMax - 1) / pMax ∧
      (∀ p ∈ (RtpCreateH261_loop fuel pMax pSeq pTs pData).1,
        p.payload.length ≤ pMax ∧ p.Timestamp = pTs) ∧
      (RtpCreateH261_loop fuel pMax pSeq pTs pData).1.map (·.SequenceNumber)
        = (List.range (RtpCreateH261_loop fuel pMax pSeq pTs pData).1.length).map
            (fun i => (pSeq + i) % 65536) ∧
      (pData ≠ [] →
        (RtpCreateH261_loop fuel pMax pSeq pTs pData).1.map (·.Marked)
          = List.replicate ((RtpCreateH261_loop fuel pMax pSeq pTs pData).1.length - 1) false
              ++ [true]) ∧
      ((RtpCreateH261_loop fuel pMax pSeq pTs pData).1.map (·.payload)).flatten = pData ∧
      (RtpCreateH261_loop fuel pMax pSeq pTs pData).2
        = (pSeq + (RtpCreateH261_loop fuel pMax pSeq pTs pData).1.length) % 65536 := by
  induction fuel with
  | zero =>
    intro pData pSeq hf hs
    have : pData = [] := List.length_eq_zero.mp (Nat.le_zero.mp hf)
    subst this
    simp [RtpCreateH261_loop, Nat.div_eq_of_lt, hm, Nat.mod_eq_of_lt hs]
  | succ fuel ih =>
    intro pData pSeq hf hs
    by_cases hne : pData = []
    · subst hne
      simp [RtpCreateH261_loop, Nat.div_eq_of_lt, hm, Nat.mod_eq_of_lt hs]
    · have hpos : 0 < pData.length := List.length_pos.mpr hne
      have hrest : (pData.drop pMax).length ≤ fuel := by
        rw [List.length_drop]; omega
      obtain ⟨i1, i2, i3, i4, i5, i6⟩ :=
        ih (pData.drop pMax) ((pSeq + 1) % 65536) hrest (Nat.mod_lt _ (by decide))
      rw [RtpCreateH261_loop_cons _ _ _ _ _ hne]
      simp only [List.length_cons, List.map_cons, List.flatten_cons]
      rw [List.length_drop] at i1
      refine ⟨?_, ?_, ?_, ?_, ?_, ?_⟩
      · rw [i1]; exact ceilDiv_step _ _ hm hpos
      · intro p hp
        rcases List.mem_cons.mp hp with h | h
        · subst h
          exact ⟨List.length_take_le _ _, rfl⟩
        · exact i2 p h
      · rw [i3, List.range_succ_eq_map, List.map_cons, List.map_map]
        congr 1
        · simp [Nat.mod_eq_of_lt hs]
        · apply List.map_congr_left
          intro i _
          simp only [Function.comp]
          omega
      · intro _
        by_cases hr : pData.drop pMax = []
        · rw [hr, RtpCreateH261_loop_nil]
          simp
        · rw [i4 hr]
          have hk : 0 < (RtpCreateH261_loop fuel pMax ((pSeq + 1) % 65536) pTs
              (pData.drop pMax)).1.length := by
            rw [i1]
            have : 0 < (pData.drop pMax).length := List.length_pos.mpr hr
            rw [List.length_drop] at this
            exact Nat.div_pos (by omega) hm
          simp only [hr, decide_False]
          generalize (RtpCreateH261_loop fuel pMax ((pSeq + 1) % 65536) pTs
              (pData.drop pMax)).1.length = k at hk
          obtain ⟨k', rfl⟩ : ∃ k', k = k' + 1 := ⟨k - 1, by omega⟩
          simp [List.replicate_succ]
      · rw [i5, List.take_append_drop]
      · rw [i6]; omega

/-- C14. For a non-empty frame of `n` bytes and a maximum payload size `pMax > 0`, the
H.261 packetizer emits `ceil(n / pMax)` RTP packets, each with at most `pMax` payload
bytes and the frame's timestamp, with the sequence numbers `pSeq, pSeq + 1, ...` modulo
2^16, marker 0 on all but the last and marker 1 on the last, the payloads being the frame
cut in order; a 3500-byte frame with `pMax = 1400` gives three packets with the markers
0, 0, 1, consecutive sequence numbers and one timestamp. -/
theorem RtpCreateH261_fragments (pMax pSeq pTs : Nat) (pData : List Nat)
    (hm : 0 < pMax) (hne : pData ≠ []) (hs : pSeq < 65536) :
    (RtpCreateH261 pMax pSeq pTs pData).1.length = (pData.length + pMax - 1) / pMax ∧
    (∀ p ∈ (RtpCreateH261 pMax pSeq pTs pData).1,
      p.payload.length ≤ pMax ∧ p.Timestamp = pTs) ∧
    (RtpCreateH261 pMax pSeq pTs pData).1.map (·.SequenceNumber)
      = (List.range ((pData.length + pMax - 1) / pMax)).map (fun i => (pSeq + i) % 65536) ∧
    (RtpCreateH261 pMax pSeq pTs pData).1.map (·.Marked)
      = List.replicate ((pData.length + pMax - 1) / pMax - 1) false ++ [true] ∧
    ((RtpCreateH261 pMax pSeq pTs pData).1.map (·.payload)).flatten = pData ∧
    (pData.length = 3500 → pMax = 1400 →
      (RtpCreateH261 pMax pSeq pTs pData).1.map (·.Marked) = [false, false, true] ∧
      (RtpCreateH261 pMax pSeq pTs pData).1.map (·.SequenceNumber)
        = [pSeq, (pSeq + 1) % 65536, (pSeq + 2) % 65536] ∧
      (RtpCreateH261 pMax pSeq pTs pData).1.map (·.Timestamp) = [pTs, pTs, pTs]) := by
  obtain ⟨h1, h2, h3, h4, h5, -⟩ :=
    RtpCreateH261_loop_spec pData.length pMax pTs hm pData pSeq (Nat.le_refl _) hs
  have h4' := h4 hne
  rw [h1] at h3 h4'
  unfold RtpCreateH261
  refine ⟨h1, h2, h3, h4', h5, ?_⟩
  intro hl hmax
  subst hmax
  have hk : (pData.length + 1400 - 1) / 1400 = 3 := by rw [hl]
  rw [hk] at h1 h3 h4'
  refine ⟨by rw [h4']; rfl, ?_, ?_⟩
  · rw [h3]
    simp [List.range_succ, Nat.mod_eq_of_lt hs]
  · have ht : ∀ p ∈ (RtpCreateH261_loop pData.length 1400 pSeq pTs pData).1,
        p.Timestamp = pTs := fun p hp => (h2 p hp).2
    generalize (RtpCreateH261_loop pData.length 1400 pSeq pTs pData).1 = ps at h1 ht
    match ps, h1, ht with
    | [a, b, c], _, ht =>
      simp [ht a (by simp), ht b (by simp), ht c (by simp)]

/-- Witness for C14: a 5-byte frame, maximum payload 2, sequence number 65535. -/
theorem RtpCreateH261_fragments_witness :
    ((0 : Nat) < 2 ∧ ([1, 2, 3, 4, 5] : List Nat) ≠ [] ∧ (65535 : Nat) < 65536) ∧
    (RtpCreateH261 2 65535 7 [1, 2, 3, 4, 5]).1.length
      = (([1, 2, 3, 4, 5] : List Nat).length + 2 - 1) / 2 ∧
    (RtpCreateH261 2 65535 7 [1, 2, 3, 4, 5]).1.map (·.SequenceNumber) = [65535, 0, 1] ∧
    (RtpCreateH261 2 65535 7 [1, 2, 3, 4, 5]).1.map (·.Marked) = [false, false, true] ∧
    (RtpCreateH261 2 65535 7 [1, 2, 3, 4, 5]).1.map (·.payload) = [[1, 2], [3, 4], [5]] :=
  have h := RtpCreateH261_fragments 2 65535 7 [1, 2, 3, 4, 5] (by decide) (by decide) (by decide)
  ⟨⟨by decide, by decide, by decide⟩, h.1, by decide, by decide, by decide⟩

end Homer
